import Mathlib

/-!
# Kismet: ring-buffer handler and device-tracker HTTP endpoints

A shallow embedding of `ringbuffer_handler.cc`, `devicetracker_httpd.cc` and `packet.cc`.
Stateful C++ objects become explicit state passing; calls made to collaborators
whose effect is not visible in the result (observer callbacks, the serializer)
are recorded in the value the embedded function returns.
-/

namespace Kismet

/-! ## ringbuffer_handler.cc -/

/-- Modelled from the spec: `RingbufV2` (declared in `ringbuf2.h`, which is not among the
sources).  A fixed-capacity byte queue: capacity `buffer_sz` and the bytes currently
stored, oldest first. -/
structure RingbufV2 where
  buffer_sz : Nat
  content : List Nat
  deriving DecidableEq, Repr

namespace RingbufV2

/-- Modelled from the spec: `size()`, the capacity of the buffer. -/
def size (b : RingbufV2) : Nat := b.buffer_sz

/-- Modelled from the spec: `used()`, the number of bytes stored. -/
def used (b : RingbufV2) : Nat := b.content.length

/-- Modelled from the spec: `available()` is `size − used`. -/
def available (b : RingbufV2) : Nat := b.size - b.used

/-- Modelled from the spec: `write(bytes) -> n_written`, a short write when there is not
enough space; never blocks, never fails. -/
def write (b : RingbufV2) (data : List Nat) : Nat × RingbufV2 :=
  let n := min data.length b.available
  (n, { b with content := b.content ++ data.take n })

/-- Modelled from the spec: `peek(buf) -> n_read`, non-consuming; the second component
is what was copied to the caller. -/
def peek (b : RingbufV2) (in_sz : Nat) : Nat × List Nat :=
  let out := b.content.take in_sz
  (out.length, out)

/-- Modelled from the spec: `read(buf) -> n_read`, consuming. -/
def read (b : RingbufV2) (in_sz : Nat) : Nat × List Nat × RingbufV2 :=
  let out := b.content.take in_sz
  (out.length, out, { b with content := b.content.drop in_sz })

end RingbufV2

/-- A registered observer (`RingbufferInterface *`), identified by its address. -/
abbrev RingbufferInterface := Nat

/-- One observer callback made by the handler. -/
inductive Notification where
  | ReadBufferFilled (obs : RingbufferInterface) (in_sz : Nat)
  | WriteBufferFilled (obs : RingbufferInterface) (in_sz : Nat)
  deriving DecidableEq, Repr

/-- The fields of `RingbufferHandler`; a `NULL` pointer is `none`. -/
structure RingbufferHandler where
  read_buffer : Option RingbufV2
  write_buffer : Option RingbufV2
  rbuf_notify : Option RingbufferInterface
  wbuf_notify : Option RingbufferInterface
  deriving DecidableEq, Repr

/-- What a `Get*BufferData` / `Peek*BufferData` call yields: the returned count, the bytes
copied to `in_ptr`, and the handler afterwards. -/
structure GetResult where
  ret : Nat
  copied : List Nat
  handler : RingbufferHandler
  deriving DecidableEq, Repr

/-- What a `Put*BufferData` call yields: the returned count, the observer callbacks it
made (in order), and the handler afterwards. -/
structure PutResult where
  ret : Nat
  notified : List Notification
  handler : RingbufferHandler
  deriving DecidableEq, Repr

namespace RingbufferHandler

/-- The constructor.  It assigns the two buffers only; the observer fields are not
assigned by it, so their initial values `rn`, `wn` are arguments here. -/
def RingbufferHandler (r_buffer_sz w_buffer_sz : Nat)
    (rn wn : Option RingbufferInterface) : Kismet.RingbufferHandler :=
  { read_buffer := if r_buffer_sz ≠ 0 then some ⟨r_buffer_sz, []⟩ else none
    write_buffer := if w_buffer_sz ≠ 0 then some ⟨w_buffer_sz, []⟩ else none
    rbuf_notify := rn
    wbuf_notify := wn }

def GetReadBufferSize (h : Kismet.RingbufferHandler) : Nat :=
  match h.read_buffer with
  | some rb => rb.size
  | none => 0

def GetWriteBufferSize (h : Kismet.RingbufferHandler) : Nat :=
  match h.write_buffer with
  | some wb => wb.size
  | none => 0

def GetReadBufferUsed (h : Kismet.RingbufferHandler) : Nat :=
  match h.read_buffer with
  | some rb => rb.used
  | none => 0

def GetWriteBufferUsed (h : Kismet.RingbufferHandler) : Nat :=
  match h.write_buffer with
  | some wb => wb.used
  | none => 0

def GetReadBufferFree (h : Kismet.RingbufferHandler) : Nat :=
  match h.read_buffer with
  | some rb => rb.available
  | none => 0

def GetWriteBufferFree (h : Kismet.RingbufferHandler) : Nat :=
  match h.write_buffer with
  | some wb => wb.available
  | none => 0

def GetReadBufferData (h : Kismet.RingbufferHandler) (in_sz : Nat) : GetResult :=
  match h.read_buffer with
  | some rb =>
    let r := rb.read in_sz
    { ret := r.1, copied := r.2.1, handler := { h with read_buffer := some r.2.2 } }
  | none => { ret := 0, copied := [], handler := h }

def GetWriteBufferData (h : Kismet.RingbufferHandler) (in_sz : Nat) : GetResult :=
  match h.write_buffer with
  | some wb =>
    let r := wb.read in_sz
    { ret := r.1, copied := r.2.1, handler := { h with write_buffer := some r.2.2 } }
  | none => { ret := 0, copied := [], handler := h }

def PeekReadBufferData (h : Kismet.RingbufferHandler) (in_sz : Nat) : GetResult :=
  match h.read_buffer with
  | some rb =>
    let r := rb.peek in_sz
    { ret := r.1, copied := r.2, handler := h }
  | none => { ret := 0, copied := [], handler := h }

def PeekWriteBufferData (h : Kismet.RingbufferHandler) (in_sz : Nat) : GetResult :=
  match h.write_buffer with
  | some wb =>
    let r := wb.peek in_sz
    { ret := r.1, copied := r.2, handler := h }
  | none => { ret := 0, copied := [], handler := h }

/-- `PutReadBufferData(in_ptr, in_sz)`; `data` is the `in_sz` bytes at `in_ptr`. -/
def PutReadBufferData (h : Kismet.RingbufferHandler) (data : List Nat) : PutResult :=
  match h.read_buffer with
  | none => { ret := 0, notified := [], handler := h }
  | some rb =>
    let w := rb.write data
    let ret := w.1
    let h1 := { h with read_buffer := some w.2 }
    match h1.rbuf_notify with
    | some obs => { ret := ret, notified := [Notification.ReadBufferFilled obs ret], handler := h1 }
    | none => { ret := ret, notified := [], handler := h1 }

/-- `PutWriteBufferData(in_ptr, in_sz)`; `data` is the `in_sz` bytes at `in_ptr`. -/
def PutWriteBufferData (h : Kismet.RingbufferHandler) (data : List Nat) : PutResult :=
  match h.write_buffer with
  | none => { ret := 0, notified := [], handler := h }
  | some wb =>
    let w := wb.write data
    let ret := w.1
    let h1 := { h with write_buffer := some w.2 }
    match h1.wbuf_notify with
    | some obs => { ret := ret, notified := [Notification.WriteBufferFilled obs ret], handler := h1 }
    | none => { ret := ret, notified := [], handler := h1 }

def SetReadBufferInterface (h : Kismet.RingbufferHandler)
    (in_interface : Option RingbufferInterface) : Kismet.RingbufferHandler :=
  { h with rbuf_notify := in_interface }

def SetWriteBufferInterface (h : Kismet.RingbufferHandler)
    (in_interface : Option RingbufferInterface) : Kismet.RingbufferHandler :=
  { h with wbuf_notify := in_interface }

def RemoveReadBufferInterface (h : Kismet.RingbufferHandler) : Kismet.RingbufferHandler :=
  { h with rbuf_notify := none }

def RemoveWriteBufferInterface (h : Kismet.RingbufferHandler) : Kismet.RingbufferHandler :=
  { h with wbuf_notify := none }

end RingbufferHandler

/-- One state-changing call on a handler, with its arguments. -/
inductive HandlerCall where
  | GetReadBufferData (in_sz : Nat)
  | GetWriteBufferData (in_sz : Nat)
  | PeekReadBufferData (in_sz : Nat)
  | PeekWriteBufferData (in_sz : Nat)
  | PutReadBufferData (data : List Nat)
  | PutWriteBufferData (data : List Nat)
  | SetReadBufferInterface (in_interface : Option RingbufferInterface)
  | SetWriteBufferInterface (in_interface : Option RingbufferInterface)
  | RemoveReadBufferInterface
  | RemoveWriteBufferInterface
  deriving DecidableEq, Repr

/-- The handler after one call. -/
def HandlerCall.apply (h : RingbufferHandler) : HandlerCall → RingbufferHandler
  | .GetReadBufferData n => (RingbufferHandler.GetReadBufferData h n).handler
  | .GetWriteBufferData n => (RingbufferHandler.GetWriteBufferData h n).handler
  | .PeekReadBufferData n => (RingbufferHandler.PeekReadBufferData h n).handler
  | .PeekWriteBufferData n => (RingbufferHandler.PeekWriteBufferData h n).handler
  | .PutReadBufferData d => (RingbufferHandler.PutReadBufferData h d).handler
  | .PutWriteBufferData d => (RingbufferHandler.PutWriteBufferData h d).handler
  | .SetReadBufferInterface i => RingbufferHandler.SetReadBufferInterface h i
  | .SetWriteBufferInterface i => RingbufferHandler.SetWriteBufferInterface h i
  | .RemoveReadBufferInterface => RingbufferHandler.RemoveReadBufferInterface h
  | .RemoveWriteBufferInterface => RingbufferHandler.RemoveWriteBufferInterface h

/-- The handler after a sequence of calls, first call first. -/
def runCalls (h : RingbufferHandler) (calls : List HandlerCall) : RingbufferHandler :=
  calls.foldl HandlerCall.apply h

/-- A sequence of `PutWriteBufferData` calls: the values returned, and the handler
afterwards. -/
def putWriteSeq (h : RingbufferHandler) : List (List Nat) → List Nat × RingbufferHandler
  | [] => ([], h)
  | d :: ds =>
    let r := RingbufferHandler.PutWriteBufferData h d
    let rest := putWriteSeq r.handler ds
    (r.ret :: rest.1, rest.2)

/-- A sequence of `PutReadBufferData` calls: the values returned, and the handler
afterwards. -/
def putReadSeq (h : RingbufferHandler) : List (List Nat) → List Nat × RingbufferHandler
  | [] => ([], h)
  | d :: ds =>
    let r := RingbufferHandler.PutReadBufferData h d
    let rest := putReadSeq r.handler ds
    (r.ret :: rest.1, rest.2)

/-- A sequence of `GetWriteBufferData` calls with the given sizes: the bytes each call
copied out. -/
def getWriteSeq (h : RingbufferHandler) : List Nat → List (List Nat)
  | [] => []
  | n :: ns =>
    let r := RingbufferHandler.GetWriteBufferData h n
    r.copied :: getWriteSeq r.handler ns

/-- A sequence of `GetReadBufferData` calls with the given sizes: the bytes each call
copied out. -/
def getReadSeq (h : RingbufferHandler) : List Nat → List (List Nat)
  | [] => []
  | n :: ns =>
    let r := RingbufferHandler.GetReadBufferData h n
    r.copied :: getReadSeq r.handler ns

/-! ## devicetracker_httpd.cc: data model -/

/-- Modelled from the spec: `device_key`, an opaque key whose construction from a string
records a parse failure in an error flag (`get_error()`); the class itself is not among
the sources. -/
structure device_key where
  id : Nat
  error : Bool
  deriving DecidableEq, Repr

/-- Modelled from the spec: `mac_addr`, a 48-bit value with an `error` flag set on a parse
failure; the class itself is not among the sources. -/
structure mac_addr where
  longmac : Nat
  error : Bool
  deriving DecidableEq, Repr

/-- Modelled from the spec: a device record (`kis_tracked_device_base`, not among the
sources): its key, its `last_time` timestamp and its nested field tree, given as the
child paths that resolve together with the node each resolves to. -/
structure kis_tracked_device_base where
  key : device_key
  last_time : Int
  children : List (List String × String)
  deriving DecidableEq, Repr

/-- Modelled from the spec: `get_child_path(fpath)`, navigation of the field tree by path;
`none` is the null result for a path that does not resolve. -/
def kis_tracked_device_base.get_child_path (d : kis_tracked_device_base)
    (fpath : List String) : Option String :=
  (d.children.find? (fun c => c.1 = fpath)).map Prod.snd

/-- `get_last_time()`. -/
def kis_tracked_device_base.get_last_time (d : kis_tracked_device_base) : Int := d.last_time

/-- The two indices of `device_tracker` the endpoints read, each in iteration order: the
key map and the MAC multimap (entries with equal MAC are adjacent in a `std::multimap`;
nothing below depends on that). -/
structure device_tracker where
  tracked_map : List (device_key × kis_tracked_device_base)
  tracked_mac_multimap : List (mac_addr × kis_tracked_device_base)
  deriving DecidableEq, Repr

/-- `std::multimap::count`. -/
def multimap_count (mm : List (mac_addr × kis_tracked_device_base)) (mac : mac_addr) : Nat :=
  mm.countP (fun e => e.1 = mac)

/-- `std::multimap::equal_range`: the entries stored under `mac`, in iteration order. -/
def multimap_equal_range (mm : List (mac_addr × kis_tracked_device_base)) (mac : mac_addr) :
    List (mac_addr × kis_tracked_device_base) :=
  mm.filter (fun e => e.1 = mac)

/-- Modelled from the spec: `fetch_device(key)` (defined in `devicetracker.cc`, not among
the sources), the lookup in the primary map; `none` is the null pointer. -/
def fetch_device (dt : device_tracker) (key : device_key) : Option kis_tracked_device_base :=
  (dt.tracked_map.find? (fun e => e.1 = key)).map Prod.snd

/-- Modelled from the spec: one run of a worker over `devs` (`do_readonly_device_work`
followed by `GetMatchedDevices`, defined outside the sources).  Every device is visited
once, in order; the callback may act on a state of its own, and a device is appended to
the match list exactly when the callback returns true. -/
def do_readonly_device_work {σ : Type} (devs : List kis_tracked_device_base)
    (fn : σ → kis_tracked_device_base → Bool × σ) (s : σ) :
    List kis_tracked_device_base × σ :=
  devs.foldl (fun acc d =>
    let r := fn acc.2 d
    (if r.1 then acc.1 ++ [d] else acc.1, r.2)) ([], s)

/-- The devices a worker run over the whole table visits. -/
def device_tracker.devices (dt : device_tracker) : List kis_tracked_device_base :=
  dt.tracked_map.map Prod.snd

/-- Modelled from the spec: a structured request body (`structured_data`, declared in
`structured.h`, not among the sources). -/
inductive structured_data where
  | str (s : String)
  | num (n : Int)
  | arr (l : List structured_data)
  | dict (l : List (String × structured_data))
  | other

namespace structured_data

/-- Modelled from the spec: the value stored under `key` of a dictionary. -/
def lookup (sd : structured_data) (key : String) : Option structured_data :=
  match sd with
  | dict l => (l.find? (fun e => e.1 = key)).map Prod.snd
  | _ => none

/-- Modelled from the spec: `has_key`. -/
def has_key (sd : structured_data) (key : String) : Bool := (sd.lookup key).isSome

/-- Modelled from the spec: `get_structured_by_key`; a missing key raises
`structured_data_exception`, whose `what()` is the error value. -/
def get_structured_by_key (sd : structured_data) (key : String) :
    Except String structured_data :=
  match sd.lookup key with
  | some v => .ok v
  | none => .error "no such key"

/-- Modelled from the spec: `is_string`. -/
def is_string : structured_data → Bool
  | str _ => true
  | _ => false

/-- Modelled from the spec: `is_array`. -/
def is_array : structured_data → Bool
  | arr _ => true
  | _ => false

/-- Modelled from the spec: `as_string`; raises on a value that is not a string. -/
def as_string : structured_data → Except String String
  | str s => .ok s
  | _ => .error "not a string"

/-- Modelled from the spec: `as_vector`; raises on a value that is not an array. -/
def as_vector : structured_data → Except String (List structured_data)
  | arr l => .ok l
  | _ => .error "not a vector"

/-- Modelled from the spec: `as_string_vector`; raises unless the value is an array of
strings. -/
def as_string_vector : structured_data → Except String (List String)
  | arr l => l.mapM as_string
  | _ => .error "not a vector"

/-- Modelled from the spec: `as_number`; raises on a value that is not a number. -/
def as_number : structured_data → Except String Int
  | num n => .ok n
  | _ => .error "not a number"

/-- Modelled from the spec: `key_as_string(key)`; raises when the key is missing or is not
a string. -/
def key_as_string (sd : structured_data) (key : String) : Except String String :=
  match sd.lookup key with
  | some v => v.as_string
  | none => .error "no such key"

/-- Modelled from the spec: `key_as_string(key, def)`; the default when the key is
missing. -/
def key_as_string_def (sd : structured_data) (key : String) (dflt : String) :
    Except String String :=
  match sd.lookup key with
  | some v => v.as_string
  | none => .ok dflt

/-- Modelled from the spec: `key_as_number(key)`; raises when the key is missing or is not
a number. -/
def key_as_number (sd : structured_data) (key : String) : Except String Int :=
  match sd.lookup key with
  | some v => v.as_number
  | none => .error "no such key"

end structured_data

/-- One `tracker_element_summary`: a field path and an optional rename. -/
structure tracker_element_summary where
  field : String
  rename : Option String
  deriving DecidableEq, Repr

/-- The element `SummarizeSingletracker_element(dev, summary_vec, rename_map)` returns
(the function is not among the sources): kept as the pair of its arguments. -/
structure SummarizedElement where
  dev : kis_tracked_device_base
  summary_vec : List tracker_element_summary
  deriving DecidableEq, Repr

/-- `SummarizeSingletracker_element(dev, summary_vec, rename_map)`. -/
def SummarizeSingletracker_element (dev : kis_tracked_device_base)
    (summary_vec : List tracker_element_summary) : SummarizedElement :=
  { dev := dev, summary_vec := summary_vec }

/-- The elements the endpoints hand to a serializer. -/
inductive tracker_element where
  | device (d : kis_tracked_device_base)
  | child (node : String)
  | device_vector (v : List kis_tracked_device_base)
  | summary (s : SummarizedElement)
  | summary_vector (v : List SummarizedElement)
  deriving DecidableEq, Repr

/-- One write to the response stream, in order: text (`stream << s`), a call of
`entrytracker->serialize(suffix, stream, elem, rename_map)` (`with_rename` is false when
the rename map passed is `NULL`), or a call of the JSON adapter on one device. -/
inductive StreamItem where
  | text (s : String)
  | serialized (suffix : String) (elem : tracker_element) (with_rename : Bool)
  | json_serialized (d : kis_tracked_device_base)
  deriving DecidableEq, Repr

/-- A call of one of the two device mutators of `device_tracker`. -/
inductive DeviceCall where
  | set_device_user_name (dev : kis_tracked_device_base) (name : String)
  | set_device_tag (dev : kis_tracked_device_base) (tag content : String)
  deriving DecidableEq, Repr

/-- The fields of `kis_net_httpd_connection` the endpoints use. -/
structure kis_net_httpd_connection where
  url : String
  httpcode : Nat
  mime_url : String
  variable_cache : List (String × String)
  deriving DecidableEq, Repr

/-- Functions the endpoints call that are defined outside the sources, taken as
parameters. -/
structure Env where
  /-- The call `str_tokenize(path, "/")`. -/
  str_tokenize : String → List String
  httpd_strip_suffix : String → String
  httpd_can_serialize : String → Bool
  get_suffix : String → String
  /-- The constructor `device_key(std::string)`. -/
  device_key : String → device_key
  /-- The constructor `mac_addr(std::string)`. -/
  mac_addr : String → mac_addr
  /-- The call `sscanf(s, "%ld", &v)`: `some v` when it returns 1. -/
  sscanf_ld : String → Option Int
  /-- The constructor `structured_json(std::string)`; the error is the `what()` of the
  `structured_data_exception` it raises. -/
  structured_json : String → Except String structured_data
  has_valid_session : kis_net_httpd_connection → Bool
  /-- The constructor `devicetracker_pcre_worker(regexdata)`: the match predicate of the
  worker, or the `what()` of the exception it raises. -/
  pcre_worker : structured_data → Except String (kis_tracked_device_base → Bool)
  set_device_user_name : device_tracker → kis_tracked_device_base → String → device_tracker
  set_device_tag :
    device_tracker → kis_tracked_device_base → String → String → device_tracker
  /-- The call `kishttpd::summarize_with_structured(devices, structured, rename_map)`. -/
  summarize_with_structured :
    List kis_tracked_device_base → structured_data → Except String tracker_element
  escape_html : String → String

/-- What a handler leaves behind: the response stream, `httpcode` and `mime_url` of the
connection, the device mutators it called, and the tracker afterwards.  Every handler
returns `MHD_YES`, which is not recorded. -/
structure Response where
  stream : List StreamItem
  httpcode : Nat
  mime_url : String
  calls : List DeviceCall
  tracker : device_tracker
  deriving DecidableEq, Repr

/-- A `return MHD_YES` after writing `items` to the stream, with the connection's status
left as it was. -/
def reply (connection : kis_net_httpd_connection) (dt : device_tracker)
    (items : List StreamItem) : Response :=
  { stream := items, httpcode := connection.httpcode, mime_url := connection.mime_url,
    calls := [], tracker := dt }

/-- A `return MHD_YES` after writing `items` to the stream and assigning
`connection->httpcode = code`. -/
def reply_code (connection : kis_net_httpd_connection) (dt : device_tracker)
    (items : List StreamItem) (code : Nat) : Response :=
  { stream := items, httpcode := code, mime_url := connection.mime_url,
    calls := [], tracker := dt }

/-- The value of a `long` after an addition, in two's complement on 64 bits. -/
def wrap_long (x : Int) : Int := (x + 2 ^ 63) % 2 ^ 64 - 2 ^ 63

/-- The timestamp adjustment of the last-time branches:
`if (lastts < 0) { time_t now = time(0); lastts = now + lastts; }`. -/
def adjust_lastts (now lastts : Int) : Int :=
  if lastts < 0 then wrap_long (now + lastts) else lastts

/-- The predicate both last-time branches give to `devicetracker_function_worker`:
`if (d->get_last_time() <= lastts) return false; return true;`. -/
def last_time_worker (lastts : Int) (d : kis_tracked_device_base) : Bool :=
  if d.get_last_time ≤ lastts then false else true


/-! ## devicetracker_httpd.cc: `httpd_verify_path`

An access `tokenurl[k]` is `tokenurl[k]?`; a handler yields `none` when it reads a token
past the end of the vector. -/

/-- The `by-key` branch of `httpd_verify_path` for `GET`. -/
def verify_get_by_key (E : Env) (dt : device_tracker) (tokenurl : List String) :
    Option Bool :=
  if tokenurl.length < 5 then some false
  else
    tokenurl[3]?.bind fun t3 =>
    let key := E.device_key t3
    if key.error then some false
    else
      tokenurl[4]?.bind fun t4 =>
      if !E.httpd_can_serialize t4 then some false
      else
        match fetch_device dt key with
        | none => some false
        | some tmi =>
          let target := E.httpd_strip_suffix t4
          if target = "device" then
            if tokenurl.length > 5 then
              let fpath := tokenurl.drop 5
              if (tmi.get_child_path fpath).isNone then some false
              else some true
            else some true
          else some false

/-- The `by-mac` branch of `httpd_verify_path`, the same text for `GET` and `POST`. -/
def verify_by_mac (E : Env) (dt : device_tracker) (tokenurl : List String) : Option Bool :=
  if tokenurl.length < 5 then some false
  else
    tokenurl[4]?.bind fun t4 =>
    if !E.httpd_can_serialize t4 then some false
    else
      tokenurl[3]?.bind fun t3 =>
      let mac := E.mac_addr t3
      if mac.error then some false
      else if multimap_count dt.tracked_mac_multimap mac > 0 then some true
      else some false

/-- The `last-time` branch of `httpd_verify_path` for `GET`. -/
def verify_get_last_time (E : Env) (tokenurl : List String) : Option Bool :=
  if tokenurl.length < 5 then some false
  else
    tokenurl[3]?.bind fun t3 =>
    match E.sscanf_ld t3 with
    | none => some false
    | some _ =>
      tokenurl[4]?.bind fun t4 =>
      if t4 = "devices.ekjson" then some true
      else some (E.httpd_can_serialize t4)

/-- The `last-time` branch of `httpd_verify_path` for `POST`. -/
def verify_post_last_time (E : Env) (tokenurl : List String) : Option Bool :=
  if tokenurl.length < 5 then some false
  else
    tokenurl[3]?.bind fun t3 =>
    match E.sscanf_ld t3 with
    | none => some false
    | some _ => tokenurl[4]?.bind fun t4 => some (E.httpd_can_serialize t4)

/-- The `by-key` branch of `httpd_verify_path` for `POST`. -/
def verify_post_by_key (E : Env) (dt : device_tracker) (tokenurl : List String) :
    Option Bool :=
  if tokenurl.length < 5 then some false
  else
    tokenurl[3]?.bind fun t3 =>
    let key := E.device_key t3
    if key.error then some false
    else
      tokenurl[4]?.bind fun t4 =>
      if !E.httpd_can_serialize t4 then some false
      else if (fetch_device dt key).isNone then some false
      else
        let target := E.httpd_strip_suffix t4
        if target = "device" then some true
        else if target = "set_name" then some true
        else if target = "set_tag" then some true
        else some false

/-- `device_tracker::httpd_verify_path(path, method)`. -/
def httpd_verify_path (E : Env) (dt : device_tracker) (path method : String) : Option Bool :=
  if method = "GET" then
    if path = "/devices/all_devices.ekjson" then some true
    else
      let tokenurl := E.str_tokenize path
      if tokenurl.length < 2 then some false
      else
        tokenurl[1]?.bind fun t1 =>
        if t1 = "devices" then
          if tokenurl.length < 3 then some false
          else
            tokenurl[2]?.bind fun t2 =>
            if t2 = "by-key" then verify_get_by_key E dt tokenurl
            else if t2 = "by-mac" then verify_by_mac E dt tokenurl
            else if t2 = "last-time" then verify_get_last_time E tokenurl
            else some false
        else some false
  else if method = "POST" then
    let tokenurl := E.str_tokenize path
    if tokenurl.length < 2 then some false
    else
      tokenurl[1]?.bind fun t1 =>
      if t1 = "devices" then
        if tokenurl.length < 4 then some false
        else
          tokenurl[2]?.bind fun t2 =>
          if t2 = "last-time" then verify_post_last_time E tokenurl
          else if t2 = "by-key" then verify_post_by_key E dt tokenurl
          else if t2 = "by-mac" then verify_by_mac E dt tokenurl
          else some false
      else some false
  else some false

/-! ## devicetracker_httpd.cc: `httpd_create_stream_response` -/

/-- The callback of the `all_devices.ekjson` worker: it serializes the device, writes a
newline and returns false. -/
def ekjson_worker (stream : List StreamItem) (d : kis_tracked_device_base) :
    Bool × List StreamItem :=
  (false, stream ++ [StreamItem.json_serialized d, StreamItem.text "\n"])

/-- The loop of the `GET` by-mac branch:
`for (mmpi = mmp.first; mmpi != mmp.second; ++mmpi) devvec->push_back(mmpi->second)`. -/
def get_by_mac_devvec (mm : List (mac_addr × kis_tracked_device_base)) (mac : mac_addr) :
    List kis_tracked_device_base :=
  (multimap_equal_range mm mac).foldl (fun devvec mmpi => devvec ++ [mmpi.2]) []

/-- The `by-key` branch of `httpd_create_stream_response`. -/
def get_by_key (E : Env) (dt : device_tracker) (connection : kis_net_httpd_connection)
    (tokenurl : List String) : Option Response :=
  if tokenurl.length < 5 then
    some (reply_code connection dt [StreamItem.text "Invalid by-key URI\n"] 500)
  else
    tokenurl[4]?.bind fun t4 =>
    if !E.httpd_can_serialize t4 then some (reply_code connection dt [] 500)
    else
      tokenurl[3]?.bind fun t3 =>
      let key := E.device_key t3
      match fetch_device dt key with
      | none => some (reply_code connection dt [StreamItem.text "Invalid device key\n"] 500)
      | some dev =>
        let target := E.httpd_strip_suffix t4
        if target = "device" then
          if tokenurl.length > 5 then
            let fpath := tokenurl.drop 5
            match dev.get_child_path fpath with
            | none =>
              some (reply_code connection dt [StreamItem.text "Invalid sub-key path\n"] 500)
            | some sub =>
              some { reply connection dt
                       [StreamItem.serialized (E.get_suffix t4) (tracker_element.child sub)
                         false] with
                     mime_url := t4 }
          else
            some (reply connection dt
              [StreamItem.serialized (E.get_suffix t4) (tracker_element.device dev) false])
        else
          some (reply_code connection dt
            [StreamItem.text "<h1>Server error</h1>Unhandled by-key target."] 500)

/-- The `by-mac` branch of `httpd_create_stream_response`. -/
def get_by_mac (E : Env) (dt : device_tracker) (connection : kis_net_httpd_connection)
    (tokenurl : List String) : Option Response :=
  if tokenurl.length < 5 then some (reply connection dt [])
  else
    tokenurl[4]?.bind fun t4 =>
    if !E.httpd_can_serialize t4 then some (reply connection dt [])
    else
      tokenurl[3]?.bind fun t3 =>
      let mac := E.mac_addr t3
      if mac.error then some (reply connection dt [])
      else
        let devvec := get_by_mac_devvec dt.tracked_mac_multimap mac
        some (reply connection dt
          [StreamItem.serialized (E.get_suffix t4) (tracker_element.device_vector devvec)
            false])

/-- The `last-time` branch of `httpd_create_stream_response`; `now` is `time(0)`. -/
def get_last_time (E : Env) (now : Int) (dt : device_tracker)
    (connection : kis_net_httpd_connection) (tokenurl : List String) : Option Response :=
  if tokenurl.length < 5 then some (reply connection dt [])
  else
    tokenurl[3]?.bind fun t3 =>
    match E.sscanf_ld t3 with
    | none => some (reply connection dt [])
    | some ts =>
      let lastts := adjust_lastts now ts
      tokenurl[4]?.bind fun t4 =>
      if !E.httpd_can_serialize t4 then some (reply connection dt [])
      else
        let devvec :=
          (do_readonly_device_work dt.devices
            (fun (_ : Unit) d => (last_time_worker lastts d, ())) ()).1
        some (reply connection dt
          [StreamItem.serialized (E.get_suffix t4) (tracker_element.device_vector devvec)
            false])

/-- `device_tracker::httpd_create_stream_response(httpd, connection, path, method, ...)`;
`now` is `time(0)`. -/
def httpd_create_stream_response (E : Env) (now : Int) (dt : device_tracker)
    (connection : kis_net_httpd_connection) (path method : String) : Option Response :=
  if method ≠ "GET" then some (reply connection dt [])
  else if path = "/devices/all_devices.ekjson" then
    some (reply connection dt (do_readonly_device_work dt.devices ekjson_worker []).2)
  else
    let tokenurl := E.str_tokenize path
    if tokenurl.length < 2 then some (reply connection dt [])
    else
      tokenurl[1]?.bind fun t1 =>
      if t1 = "devices" then
        if tokenurl.length < 5 then some (reply connection dt [])
        else
          tokenurl[2]?.bind fun t2 =>
          if t2 = "by-key" then get_by_key E dt connection tokenurl
          else if t2 = "by-mac" then get_by_mac E dt connection tokenurl
          else if t2 = "last-time" then get_last_time E now dt connection tokenurl
          else some (reply connection dt [])
      else some (reply connection dt [])


/-! ## devicetracker_httpd.cc: `httpd_post_complete` -/

/-- How a `try` block that contains `return` statements ends before its last statement:
by a `return` after writing a message and setting status 400, or by an exception with the
given `what()`. -/
inductive Abort where
  | returned (msg : String)
  | thrown (what : String)
  deriving DecidableEq, Repr

/-- The loop over the `fields` list: a string gives a summary without rename, an array is
read as a string vector and must have exactly two entries, anything else is skipped. -/
def parse_fields :
    List structured_data → List tracker_element_summary →
      Except Abort (List tracker_element_summary)
  | [], summary_vec => .ok summary_vec
  | i :: rest, summary_vec =>
    if i.is_string then
      match i.as_string with
      | .error e => .error (Abort.thrown e)
      | .ok s => parse_fields rest (summary_vec ++ [{ field := s, rename := none }])
    else if i.is_array then
      match i.as_string_vector with
      | .error e => .error (Abort.thrown e)
      | .ok mapvec =>
        if mapvec.length ≠ 2 then
          .error (Abort.returned "Invalid request: Expected field, rename")
        else
          match mapvec[0]?, mapvec[1]? with
          | some f, some r =>
            parse_fields rest (summary_vec ++ [{ field := f, rename := some r }])
          | _, _ => .error (Abort.thrown "out of range")
    else parse_fields rest summary_vec

/-- What the second `try` block of `httpd_post_complete` computes from the command
dictionary. -/
structure PostCommand where
  summary_vec : List tracker_element_summary
  wrapper_name : String
  regexdata : Option structured_data
  post_ts : Int

/-- The second `try` block of `httpd_post_complete`: `fields`, `wrapper`, `regex` and
`last_time` of the command dictionary; `now` is `time(0)`. -/
def parse_command (now : Int) (structdata : structured_data) : Except Abort PostCommand :=
  let fields_result : Except Abort (List tracker_element_summary) :=
    if structdata.has_key "fields" then
      match structdata.get_structured_by_key "fields" with
      | .error e => .error (Abort.thrown e)
      | .ok fields =>
        match fields.as_vector with
        | .error e => .error (Abort.thrown e)
        | .ok fvec => parse_fields fvec []
    else .ok []
  match fields_result with
  | .error a => .error a
  | .ok summary_vec =>
    match structdata.key_as_string_def "wrapper" "" with
    | .error e => .error (Abort.thrown e)
    | .ok wrapper_name =>
      let regex_result : Except Abort (Option structured_data) :=
        if structdata.has_key "regex" then
          match structdata.get_structured_by_key "regex" with
          | .error e => .error (Abort.thrown e)
          | .ok r => .ok (some r)
        else .ok none
      match regex_result with
      | .error a => .error a
      | .ok regexdata =>
        if structdata.has_key "last_time" then
          match structdata.key_as_number "last_time" with
          | .error e => .error (Abort.thrown e)
          | .ok rawt =>
            .ok { summary_vec := summary_vec, wrapper_name := wrapper_name,
                  regexdata := regexdata,
                  post_ts := if rawt < 0 then wrap_long (now + rawt) else rawt }
        else
          .ok { summary_vec := summary_vec, wrapper_name := wrapper_name,
                regexdata := regexdata, post_ts := 0 }

/-- The handler `catch (const std::exception& e)` of the third `try` block. -/
def post_catch (concls : kis_net_httpd_connection) (dt : device_tracker) (what : String) :
    Response :=
  reply_code concls dt [StreamItem.text "Invalid request: ", StreamItem.text what] 400

/-- The statements after the third `try` block: `stream << "OK"; return MHD_YES;`. -/
def post_end (concls : kis_net_httpd_connection) (dt : device_tracker) : Response :=
  reply concls dt [StreamItem.text "OK"]

/-- The loop of the `POST` by-mac branch: `devvec->push_back(`
`SummarizeSingletracker_element(mmpi->second, summary_vec, rename_map))` over the
equal range of `mac`. -/
def post_by_mac_devvec (mm : List (mac_addr × kis_tracked_device_base)) (mac : mac_addr)
    (summary_vec : List tracker_element_summary) : List SummarizedElement :=
  (multimap_equal_range mm mac).foldl
    (fun devvec mmpi => devvec ++ [SummarizeSingletracker_element mmpi.2 summary_vec]) []

/-- The `by-mac` branch of `httpd_post_complete`. -/
def post_by_mac (E : Env) (dt : device_tracker) (concls : kis_net_httpd_connection)
    (tokenurl : List String) (cmd : PostCommand) : Option Response :=
  if tokenurl.length < 5 then
    some (reply_code concls dt [StreamItem.text "Invalid request: Invalid URI\n"] 400)
  else
    tokenurl[4]?.bind fun t4 =>
    if !E.httpd_can_serialize t4 then
      some (reply_code concls dt
        [StreamItem.text "Invalid request: Cannot find serializer for file type\n"] 400)
    else
      tokenurl[3]?.bind fun t3 =>
      let mac := E.mac_addr t3
      if mac.error then
        some (reply_code concls dt
          [StreamItem.text "Invalid request: Invalid MAC address\n"] 400)
      else if multimap_count dt.tracked_mac_multimap mac = 0 then
        some (reply_code concls dt
          [StreamItem.text "Invalid request: Could not find device by MAC\n"] 400)
      else
        let target := E.httpd_strip_suffix t4
        if target = "devices" then
          let devvec := post_by_mac_devvec dt.tracked_mac_multimap mac cmd.summary_vec
          some (reply concls dt
            [StreamItem.serialized (E.get_suffix t4) (tracker_element.summary_vector devvec)
              true])
        else some (reply_code concls dt [StreamItem.text "Invalid request"] 400)

/-- The `by-key` branch of `httpd_post_complete`. -/
def post_by_key (E : Env) (dt : device_tracker) (concls : kis_net_httpd_connection)
    (tokenurl : List String) (structdata : structured_data) (cmd : PostCommand) :
    Option Response :=
  if tokenurl.length < 5 then
    some (reply_code concls dt [StreamItem.text "Invalid request: Invalid URI"] 400)
  else
    tokenurl[4]?.bind fun t4 =>
    if !E.httpd_can_serialize t4 then
      some (reply_code concls dt
        [StreamItem.text "Invalid request: Cannot serialize field type"] 400)
    else
      tokenurl[3]?.bind fun t3 =>
      let key := E.device_key t3
      match fetch_device dt key with
      | none =>
        some (reply_code concls dt
          [StreamItem.text "Invalid request: No device with that key"] 400)
      | some dev =>
        let target := E.httpd_strip_suffix t4
        if target = "device" then
          let simple := SummarizeSingletracker_element dev cmd.summary_vec
          some (reply concls dt
            [StreamItem.serialized (E.get_suffix t4) (tracker_element.summary simple) true])
        else if target = "set_name" then
          if !E.has_valid_session concls then some (post_catch concls dt "login required")
          else if !structdata.has_key "username" then
            some (post_catch concls dt "expected username in command dictionary")
          else
            match structdata.key_as_string "username" with
            | .error e => some (post_catch concls dt e)
            | .ok name =>
              some { stream := [StreamItem.text "OK"], httpcode := concls.httpcode,
                     mime_url := concls.mime_url,
                     calls := [DeviceCall.set_device_user_name dev name],
                     tracker := E.set_device_user_name dt dev name }
        else if target = "set_tag" then
          if !E.has_valid_session concls then some (post_catch concls dt "login required")
          else if !structdata.has_key "tagname" then
            some (post_catch concls dt "expected tagname in command dictionary")
          else if !structdata.has_key "tagvalue" then
            some (post_catch concls dt "expected tagvalue in command dictionary")
          else
            match structdata.key_as_string "tagname" with
            | .error e => some (post_catch concls dt e)
            | .ok tag =>
              match structdata.key_as_string "tagvalue" with
              | .error e => some (post_catch concls dt e)
              | .ok content =>
                some { stream := [StreamItem.text "OK"], httpcode := concls.httpcode,
                       mime_url := concls.mime_url,
                       calls := [DeviceCall.set_device_tag dev tag content],
                       tracker := E.set_device_tag dt dev tag content }
        else some (post_end concls dt)

/-- The loop of the `POST` last-time branch over the devices that passed both filters:
`outdevs->push_back(SummarizeSingletracker_element(rd, summary_vec, rename_map))`. -/
def post_last_time_outdevs (regexdevs : List kis_tracked_device_base)
    (summary_vec : List tracker_element_summary) : List SummarizedElement :=
  regexdevs.foldl
    (fun outdevs rd => outdevs ++ [SummarizeSingletracker_element rd summary_vec]) []

/-- The `last-time` branch of `httpd_post_complete`; `now` is `time(0)`. -/
def post_last_time (E : Env) (now : Int) (dt : device_tracker)
    (concls : kis_net_httpd_connection) (tokenurl : List String) (cmd : PostCommand) :
    Option Response :=
  if tokenurl.length < 5 then
    some (reply_code concls dt [StreamItem.text "Invalid request"] 400)
  else
    tokenurl[3]?.bind fun t3 =>
    match E.sscanf_ld t3 with
    | none => some (reply_code concls dt [StreamItem.text "Invalid request"] 400)
    | some ts =>
      tokenurl[4]?.bind fun t4 =>
      if !E.httpd_can_serialize t4 then
        some (reply_code concls dt [StreamItem.text "Invalid request"] 400)
      else
        let lastts := adjust_lastts now ts
        let timedevs :=
          (do_readonly_device_work dt.devices
            (fun (_ : Unit) d => (last_time_worker lastts d, ())) ()).1
        let regex_result : Except String (List kis_tracked_device_base) :=
          match cmd.regexdata with
          | some regexdata =>
            match E.pcre_worker regexdata with
            | .error e => .error e
            | .ok worker =>
              .ok (do_readonly_device_work timedevs
                (fun (_ : Unit) d => (worker d, ())) ()).1
          | none => .ok timedevs
        match regex_result with
        | .error e => some (post_catch concls dt e)
        | .ok regexdevs =>
          let outdevs := post_last_time_outdevs regexdevs cmd.summary_vec
          some (reply concls dt
            [StreamItem.serialized (E.get_suffix t4) (tracker_element.summary_vector outdevs)
              true])

/-- `device_tracker::httpd_post_complete(concls)`; `now` is `time(0)`. -/
def httpd_post_complete (E : Env) (now : Int) (dt : device_tracker)
    (concls : kis_net_httpd_connection) : Option Response :=
  let tokenurl := E.str_tokenize concls.url
  if tokenurl.length < 4 then
    some (reply_code concls dt [StreamItem.text "Invalid request"] 400)
  else
    let json_result : Except String structured_data :=
      match concls.variable_cache.find? (fun v => v.1 = "json") with
      | some v => E.structured_json v.2
      | none => .error "Missing data; expected command dictionary in json= field"
    match json_result with
    | .error e =>
      some (reply_code concls dt [StreamItem.text "Invalid request: ", StreamItem.text e] 400)
    | .ok structdata =>
      match parse_command now structdata with
      | .error (Abort.returned msg) => some (reply_code concls dt [StreamItem.text msg] 400)
      | .error (Abort.thrown e) =>
        some (reply_code concls dt
          [StreamItem.text "Invalid request: Malformed command dictionary, ",
           StreamItem.text e] 400)
      | .ok cmd =>
        tokenurl[1]?.bind fun t1 =>
        if t1 = "devices" then
          tokenurl[2]?.bind fun t2 =>
          if t2 = "by-mac" then post_by_mac E dt concls tokenurl cmd
          else if t2 = "by-key" then post_by_key E dt concls tokenurl structdata cmd
          else if t2 = "last-time" then post_last_time E now dt concls tokenurl cmd
          else some (post_end concls dt)
        else some (post_end concls dt)

/-! ## devicetracker_httpd.cc: `multimac_endp_handler` -/

/-- What `multimac_endp_handler` leaves behind: the stream and the status it returns. -/
structure EndpointResult where
  stream : List StreamItem
  status : Nat
  deriving DecidableEq, Repr

/-- The first loop of `multimac_endp_handler`: every entry of the `devices` list is read
as a string and parsed as a MAC address; an entry that fails raises. -/
def multimac_parse (E : Env) :
    List structured_data → List mac_addr → Except String (List mac_addr)
  | [], macs => .ok macs
  | m :: rest, macs =>
    match m.as_string with
    | .error e => .error e
    | .ok str =>
      let ma := E.mac_addr str
      if ma.error then
        .error ("Invalid MAC address '" ++ E.escape_html str ++ "' in 'devices' list")
      else multimac_parse E rest (macs ++ [ma])

/-- The second loop of `multimac_endp_handler`: for each MAC in turn, every device of its
equal range in the copied multimap is pushed onto `ret_devices`. -/
def multimac_ret_devices (immutable_copy : List (mac_addr × kis_tracked_device_base))
    (macs : List mac_addr) : List kis_tracked_device_base :=
  macs.foldl (fun ret_devices m =>
    (multimap_equal_range immutable_copy m).foldl
      (fun ret_devices msi => ret_devices ++ [msi.2]) ret_devices) []

/-- The body of the `try` block of `multimac_endp_handler`: the element serialized, or the
`what()` of the exception raised. -/
def multimac_try (E : Env) (dt : device_tracker) (structured : structured_data) :
    Except String tracker_element :=
  if !structured.has_key "devices" then
    .error "Missing 'devices' key in command dictionary"
  else
    match structured.get_structured_by_key "devices" with
    | .error e => .error e
    | .ok devices =>
      match devices.as_vector with
      | .error e => .error e
      | .ok maclist =>
        match multimac_parse E maclist [] with
        | .error e => .error e
        | .ok macs =>
          let immutable_copy := dt.tracked_mac_multimap
          let ret_devices := multimac_ret_devices immutable_copy macs
          E.summarize_with_structured ret_devices structured

/-- `device_tracker::multimac_endp_handler(stream, uri, structured, variable_cache)`.  The
statements after the `try` block (`Unhandled request`, 500) cannot be reached: the block
returns 200 or raises into its `catch`. -/
def multimac_endp_handler (E : Env) (dt : device_tracker) (uri : String)
    (structured : structured_data) : EndpointResult :=
  match multimac_try E dt structured with
  | .ok output =>
    { stream := [StreamItem.serialized (E.get_suffix uri) output true], status := 200 }
  | .error what =>
    { stream := [StreamItem.text "Invalid request: ", StreamItem.text what,
                 StreamItem.text "\n"],
      status := 500 }


/-! ## packet.cc

`MAX_PACKET_COMPONENTS` is a constant of `packet.h`, which is not among the sources; it is
an argument of every function here. -/

/-- A packet component as the packet sees it (`packet_component *`): the address of the
object and its `self_destruct` flag. -/
structure packet_component where
  addr : Nat
  self_destruct : Bool
  deriving DecidableEq, Repr

/-- The `std::runtime_error` that `insert` raises; its message is formatted from the index
and from `MAX_PACKET_COMPONENTS`. -/
structure runtime_error where
  index : Nat
  bound : Nat
  deriving DecidableEq, Repr

/-- The fields of `kis_packet` that `packet.cc` touches; a `NULL` slot of `content_vec` is
`none`. -/
structure kis_packet where
  error : Nat
  filtered : Nat
  duplicate : Nat
  content_vec : List (Option packet_component)
  deriving DecidableEq, Repr

/-- What `insert` leaves behind: the exception raised (if any), the packet afterwards, the
components it deleted, and the slot named in the leak warning written to `stderr`. -/
structure InsertResult where
  thrown : Option runtime_error
  packet : kis_packet
  deleted : List packet_component
  warning : Option Nat
  deriving DecidableEq, Repr

/-- What `fetch` yields: the exception raised (if any) and the pointer returned. -/
structure FetchResult where
  thrown : Option runtime_error
  ret : Option packet_component
  deriving DecidableEq, Repr

/-- What `erase` leaves behind: the exception raised (if any), the packet afterwards and
the components it deleted. -/
structure EraseResult where
  thrown : Option runtime_error
  packet : kis_packet
  deleted : List packet_component
  deriving DecidableEq, Repr

namespace kis_packet

/-- The constructor: the flags are cleared and `content_vec` is resized to
`MAX_PACKET_COMPONENTS` null slots. -/
def kis_packet (MAX_PACKET_COMPONENTS : Nat) : Kismet.kis_packet :=
  { error := 0, filtered := 0, duplicate := 0,
    content_vec := List.replicate MAX_PACKET_COMPONENTS none }

/-- The destructor: the components it deletes, in slot order (every non-null slot whose
component has `self_destruct` set). -/
def destructor (p : Kismet.kis_packet) : List packet_component :=
  p.content_vec.foldl (fun deleted pcm =>
    match pcm with
    | none => deleted
    | some c => if c.self_destruct then deleted ++ [c] else deleted) []

/-- `kis_packet::insert(index, data)`. -/
def insert (MAX_PACKET_COMPONENTS : Nat) (p : Kismet.kis_packet) (index : Nat)
    (data : Option packet_component) : InsertResult :=
  if index ≥ MAX_PACKET_COMPONENTS then
    { thrown := some { index := index, bound := MAX_PACKET_COMPONENTS }, packet := p,
      deleted := [], warning := none }
  else
    { thrown := none,
      packet := { p with content_vec := p.content_vec.set index data },
      deleted := [],
      warning := if p.content_vec.getD index none ≠ none then some index else none }

/-- `kis_packet::fetch(index)`. -/
def fetch (MAX_PACKET_COMPONENTS : Nat) (p : Kismet.kis_packet) (index : Nat) : FetchResult :=
  if index ≥ MAX_PACKET_COMPONENTS then { thrown := none, ret := none }
  else { thrown := none, ret := p.content_vec.getD index none }

/-- `kis_packet::erase(index)`. -/
def erase (MAX_PACKET_COMPONENTS : Nat) (p : Kismet.kis_packet) (index : Nat) : EraseResult :=
  if index ≥ MAX_PACKET_COMPONENTS then { thrown := none, packet := p, deleted := [] }
  else
    match p.content_vec.getD index none with
    | some c =>
      { thrown := none,
        packet := { p with content_vec := p.content_vec.set index none },
        deleted := if c.self_destruct then [c] else [] }
    | none => { thrown := none, packet := p, deleted := [] }

end kis_packet

/-- A packet with slots 1 (owned component) and 2 (borrowed component) occupied, for
`MAX_PACKET_COMPONENTS = 4`. -/
def examplePacket : kis_packet :=
  { error := 0, filtered := 0, duplicate := 0,
    content_vec := [none, some ⟨100, true⟩, some ⟨200, false⟩, none] }


/-! ## A concrete environment and table, for evaluating the handlers -/

/-- Splits a list of characters at every slash; `cur` is the token being read. -/
def split_path : List Char → List Char → List String
  | [], cur => [String.mk cur]
  | c :: cs, cur =>
    if c = '/' then String.mk cur :: split_path cs [] else split_path cs (cur ++ [c])

/-- The characters after the last dot. -/
def after_dot (s : String) : String :=
  String.mk (s.data.reverse.takeWhile (fun c => c != '.')).reverse

/-- The characters before the last dot. -/
def before_dot (s : String) : String :=
  String.mk ((s.data.reverse.dropWhile (fun c => c != '.')).drop 1).reverse

/-- An environment with a slash tokenizer, a `json` serializer only, three device keys,
three MAC addresses, a few timestamps and six command dictionaries. -/
def exampleEnv : Env where
  str_tokenize := fun path => split_path path.data []
  httpd_strip_suffix := before_dot
  httpd_can_serialize := fun t => decide (after_dot t = "json")
  get_suffix := after_dot
  device_key := fun s =>
    if s = "1" then ⟨1, false⟩ else if s = "2" then ⟨2, false⟩
    else if s = "4" then ⟨4, false⟩ else ⟨0, true⟩
  mac_addr := fun s =>
    if s = "AA:BB:CC:DD:EE:FF" then ⟨1, false⟩
    else if s = "00:11:22:33:44:55" then ⟨2, false⟩
    else if s = "00:00:00:00:00:09" then ⟨9, false⟩
    else ⟨0, true⟩
  sscanf_ld := fun s =>
    if s = "-60" then some (-60) else if s = "100" then some 100 else none
  structured_json := fun s =>
    if s = "\x7b\x7d" then .ok (structured_data.dict [])
    else if s = "\x7b\x22username\x22: \x22lab\x22\x7d" then
      .ok (structured_data.dict [("username", structured_data.str "lab")])
    else if s = "\x7b\x22fields\x22: [\x22name\x22, [\x22signal.last\x22, \x22sig\x22]]\x7d" then
      .ok (structured_data.dict [("fields", structured_data.arr
        [structured_data.str "name",
         structured_data.arr [structured_data.str "signal.last", structured_data.str "sig"]])])
    else if s = "\x7b\x22fields\x22: [\x22name\x22, [\x22signal.last\x22]]\x7d" then
      .ok (structured_data.dict [("fields", structured_data.arr
        [structured_data.str "name",
         structured_data.arr [structured_data.str "signal.last"]])])
    else if s = "\x7b\x22last_time\x22: 5\x7d" then
      .ok (structured_data.dict [("last_time", structured_data.num 5)])
    else if s = "\x7b\x22last_time\x22: -500\x7d" then
      .ok (structured_data.dict [("last_time", structured_data.num (-500))])
    else .error "parse error"
  has_valid_session := fun _ => false
  pcre_worker := fun _ => .error "bad regex"
  set_device_user_name := fun dt _ _ => dt
  set_device_tag := fun dt _ _ _ => dt
  summarize_with_structured := fun devs _ => .ok (tracker_element.device_vector devs)
  escape_html := fun s => s

/-- The same environment with a valid session on every connection. -/
def exampleEnvSession : Env :=
  { exampleEnv with has_valid_session := fun _ => true }

/-- Three devices: key 1 last seen at 100, key 2 at 940, key 3 at 941. -/
def exampleDev1 : kis_tracked_device_base :=
  { key := ⟨1, false⟩, last_time := 100, children := [(["name"], "n1")] }

def exampleDev2 : kis_tracked_device_base :=
  { key := ⟨2, false⟩, last_time := 940, children := [] }

def exampleDev3 : kis_tracked_device_base :=
  { key := ⟨3, false⟩, last_time := 941, children := [] }

/-- A table in which MAC 1 indexes devices 1 and 3, MAC 2 indexes device 2, and MAC 9
indexes nothing. -/
def exampleTracker : device_tracker :=
  { tracked_map := [(⟨1, false⟩, exampleDev1), (⟨2, false⟩, exampleDev2),
                    (⟨3, false⟩, exampleDev3)]
    tracked_mac_multimap := [(⟨1, false⟩, exampleDev1), (⟨1, false⟩, exampleDev3),
                             (⟨2, false⟩, exampleDev2)] }

/-- A connection for `url` with status 200 and the given POST variables. -/
def exampleConnection (url : String) (variable_cache : List (String × String)) :
    kis_net_httpd_connection :=
  { url := url, httpcode := 200, mime_url := "", variable_cache := variable_cache }


/-! ## Vocabulary for statements about responses -/

/-- Whether only text was written to the stream (no serializer was called). -/
def only_text (items : List StreamItem) : Bool :=
  items.all fun i =>
    match i with
    | StreamItem.text _ => true
    | _ => false

/-- The response reports an error with status `code`: the status is `code`, only text was
written, and no device mutator was called. -/
def reports_error (r : Response) (code : Nat) : Prop :=
  r.httpcode = code ∧ only_text r.stream = true ∧ r.calls = []

/-- The response of `httpd_post_complete` reports no error: the status is the one the
connection had, and the stream holds the text `OK` or one serialized element. -/
def post_success (concls : kis_net_httpd_connection) (r : Response) : Prop :=
  r.httpcode = concls.httpcode ∧
  (r.stream = [StreamItem.text "OK"] ∨
   ∃ suffix elem, r.stream = [StreamItem.serialized suffix elem true])


/-- The text written to the stream: the concatenation of its text items, in order. -/
def written_text : List StreamItem → String
  | [] => ""
  | StreamItem.text s :: rest => s ++ written_text rest
  | _ :: rest => written_text rest


/-- Whether an entry of a `devices` list is a string that parses as a MAC address. -/
def parses_as_mac (E : Env) (m : structured_data) : Bool :=
  match m.as_string with
  | .ok str => !(E.mac_addr str).error
  | .error _ => false

/-- An entry of a `fields` list whose arrays hold strings only: a field path, or an array
of strings. -/
inductive FieldEntry where
  | path (p : String)
  | strings (ss : List String)
  deriving DecidableEq, Repr

/-- The entry as it appears in the parsed body. -/
def FieldEntry.encode : FieldEntry → structured_data
  | FieldEntry.path p => structured_data.str p
  | FieldEntry.strings ss => structured_data.arr (ss.map structured_data.str)

/-- Whether the entry is a path or a two-element array. -/
def FieldEntry.well_formed : FieldEntry → Bool
  | FieldEntry.path _ => true
  | FieldEntry.strings ss => ss.length == 2

/-- The selector entry the spec gives for a well-formed entry: `(p, no alias)` for a path
`p`, `(p, alias a)` for the array `[p, a]`. -/
def FieldEntry.selector : FieldEntry → tracker_element_summary
  | FieldEntry.path p => { field := p, rename := none }
  | FieldEntry.strings [p, a] => { field := p, rename := some a }
  | FieldEntry.strings _ => { field := "", rename := none }


/-- The body `sd` with every value stored under `last_time` replaced by the number `n`;
two bodies `with_last_time sd n` and `with_last_time sd m` differ at most in the numeric
value of `last_time`. -/
def with_last_time (sd : structured_data) (n : Int) : structured_data :=
  match sd with
  | structured_data.dict l =>
    structured_data.dict
      (l.map fun e => if e.1 = "last_time" then (e.1, structured_data.num n) else e)
  | x => x

/-- What the dispatch of `httpd_post_complete` reads of a parsed command: everything but
`post_ts`. -/
def PostCommand.used (cmd : PostCommand) :
    List tracker_element_summary × String × Option structured_data :=
  (cmd.summary_vec, cmd.wrapper_name, cmd.regexdata)


/-! ## Lemmas: ring-buffer handler -/

theorem HandlerCall.apply_read_buffer_none (h : RingbufferHandler) (c : HandlerCall)
    (hr : h.read_buffer = none) : (c.apply h).read_buffer = none := by
  cases c <;>
    simp [HandlerCall.apply, RingbufferHandler.GetReadBufferData,
      RingbufferHandler.GetWriteBufferData, RingbufferHandler.PeekReadBufferData,
      RingbufferHandler.PeekWriteBufferData, RingbufferHandler.PutReadBufferData,
      RingbufferHandler.PutWriteBufferData, RingbufferHandler.SetReadBufferInterface,
      RingbufferHandler.SetWriteBufferInterface, RingbufferHandler.RemoveReadBufferInterface,
      RingbufferHandler.RemoveWriteBufferInterface, hr] <;>
    (split <;> try split) <;> simp_all

theorem HandlerCall.apply_write_buffer_none (h : RingbufferHandler) (c : HandlerCall)
    (hw : h.write_buffer = none) : (c.apply h).write_buffer = none := by
  cases c <;>
    simp [HandlerCall.apply, RingbufferHandler.GetReadBufferData,
      RingbufferHandler.GetWriteBufferData, RingbufferHandler.PeekReadBufferData,
      RingbufferHandler.PeekWriteBufferData, RingbufferHandler.PutReadBufferData,
      RingbufferHandler.PutWriteBufferData, RingbufferHandler.SetReadBufferInterface,
      RingbufferHandler.SetWriteBufferInterface, RingbufferHandler.RemoveReadBufferInterface,
      RingbufferHandler.RemoveWriteBufferInterface, hw] <;>
    (split <;> try split) <;> simp_all

theorem runCalls_read_buffer_none (calls : List HandlerCall) (h : RingbufferHandler)
    (hr : h.read_buffer = none) : (runCalls h calls).read_buffer = none := by
  induction calls generalizing h with
  | nil => simpa [runCalls] using hr
  | cons c cs ih =>
    have := ih (c.apply h) (HandlerCall.apply_read_buffer_none h c hr)
    simpa [runCalls] using this

theorem runCalls_write_buffer_none (calls : List HandlerCall) (h : RingbufferHandler)
    (hw : h.write_buffer = none) : (runCalls h calls).write_buffer = none := by
  induction calls generalizing h with
  | nil => simpa [runCalls] using hw
  | cons c cs ih =>
    have := ih (c.apply h) (HandlerCall.apply_write_buffer_none h c hw)
    simpa [runCalls] using this

theorem putWriteSeq_none (ds : List (List Nat)) (h : RingbufferHandler)
    (hw : h.write_buffer = none) :
    (putWriteSeq h ds).1 = ds.map (fun _ => 0) ∧ (putWriteSeq h ds).2 = h := by
  induction ds with
  | nil => simp [putWriteSeq]
  | cons d ds ih => simp [putWriteSeq, RingbufferHandler.PutWriteBufferData, hw, ih]

theorem putReadSeq_none (ds : List (List Nat)) (h : RingbufferHandler)
    (hr : h.read_buffer = none) :
    (putReadSeq h ds).1 = ds.map (fun _ => 0) ∧ (putReadSeq h ds).2 = h := by
  induction ds with
  | nil => simp [putReadSeq]
  | cons d ds ih => simp [putReadSeq, RingbufferHandler.PutReadBufferData, hr, ih]

theorem putWriteSeq_fits (ds : List (List Nat)) (h : RingbufferHandler) (wb : RingbufV2)
    (hw : h.write_buffer = some wb)
    (hfit : wb.content.length + (ds.map List.length).sum ≤ wb.buffer_sz) :
    (putWriteSeq h ds).1 = ds.map List.length ∧
    (putWriteSeq h ds).2.write_buffer
      = some { wb with content := wb.content ++ ds.flatten } := by
  induction ds generalizing h wb with
  | nil => simp [putWriteSeq, hw]
  | cons d ds ih =>
    simp only [List.map_cons, List.sum_cons] at hfit
    have hmin : min d.length (wb.buffer_sz - wb.content.length) = d.length := by omega
    have hstep : (RingbufferHandler.PutWriteBufferData h d).ret = d.length ∧
        (RingbufferHandler.PutWriteBufferData h d).handler.write_buffer
          = some { wb with content := wb.content ++ d } := by
      simp only [RingbufferHandler.PutWriteBufferData, hw, RingbufV2.write,
        RingbufV2.available, RingbufV2.size, RingbufV2.used, hmin, List.take_length]
      cases h.wbuf_notify <;> simp
    have := ih (RingbufferHandler.PutWriteBufferData h d).handler
      { wb with content := wb.content ++ d } hstep.2
      (by simp only [List.length_append]; omega)
    simp [putWriteSeq, hstep.1, this, List.append_assoc]

theorem putReadSeq_fits (ds : List (List Nat)) (h : RingbufferHandler) (rb : RingbufV2)
    (hr : h.read_buffer = some rb)
    (hfit : rb.content.length + (ds.map List.length).sum ≤ rb.buffer_sz) :
    (putReadSeq h ds).1 = ds.map List.length ∧
    (putReadSeq h ds).2.read_buffer
      = some { rb with content := rb.content ++ ds.flatten } := by
  induction ds generalizing h rb with
  | nil => simp [putReadSeq, hr]
  | cons d ds ih =>
    simp only [List.map_cons, List.sum_cons] at hfit
    have hmin : min d.length (rb.buffer_sz - rb.content.length) = d.length := by omega
    have hstep : (RingbufferHandler.PutReadBufferData h d).ret = d.length ∧
        (RingbufferHandler.PutReadBufferData h d).handler.read_buffer
          = some { rb with content := rb.content ++ d } := by
      simp only [RingbufferHandler.PutReadBufferData, hr, RingbufV2.write,
        RingbufV2.available, RingbufV2.size, RingbufV2.used, hmin, List.take_length]
      cases h.rbuf_notify <;> simp
    have := ih (RingbufferHandler.PutReadBufferData h d).handler
      { rb with content := rb.content ++ d } hstep.2
      (by simp only [List.length_append]; omega)
    simp [putReadSeq, hstep.1, this, List.append_assoc]

theorem getWriteSeq_some (ns : List Nat) (h : RingbufferHandler) (wb : RingbufV2)
    (hw : h.write_buffer = some wb) :
    (getWriteSeq h ns).flatten = wb.content.take ns.sum := by
  induction ns generalizing h wb with
  | nil => simp [getWriteSeq]
  | cons n ns ih =>
    have := ih (RingbufferHandler.GetWriteBufferData h n).handler
      { wb with content := wb.content.drop n }
      (by simp [RingbufferHandler.GetWriteBufferData, hw, RingbufV2.read])
    simp only [getWriteSeq, List.flatten_cons, this, List.sum_cons]
    simp [RingbufferHandler.GetWriteBufferData, hw, RingbufV2.read, List.take_add]

theorem getReadSeq_some (ns : List Nat) (h : RingbufferHandler) (rb : RingbufV2)
    (hr : h.read_buffer = some rb) :
    (getReadSeq h ns).flatten = rb.content.take ns.sum := by
  induction ns generalizing h rb with
  | nil => simp [getReadSeq]
  | cons n ns ih =>
    have := ih (RingbufferHandler.GetReadBufferData h n).handler
      { rb with content := rb.content.drop n }
      (by simp [RingbufferHandler.GetReadBufferData, hr, RingbufV2.read])
    simp only [getReadSeq, List.flatten_cons, this, List.sum_cons]
    simp [RingbufferHandler.GetReadBufferData, hr, RingbufV2.read, List.take_add]

theorem getWriteSeq_none (ns : List Nat) (h : RingbufferHandler)
    (hw : h.write_buffer = none) : (getWriteSeq h ns).flatten = [] := by
  induction ns with
  | nil => simp [getWriteSeq]
  | cons n ns ih => simp [getWriteSeq, RingbufferHandler.GetWriteBufferData, hw, ih]

theorem getReadSeq_none (ns : List Nat) (h : RingbufferHandler)
    (hr : h.read_buffer = none) : (getReadSeq h ns).flatten = [] := by
  induction ns with
  | nil => simp [getReadSeq]
  | cons n ns ih => simp [getReadSeq, RingbufferHandler.GetReadBufferData, hr, ih]

theorem flatten_eq_nil_of_sum_length (ds : List (List Nat))
    (h : (ds.map List.length).sum ≤ 0) :
    ds.flatten = [] ∧ ds.map List.length = ds.map (fun _ => 0) := by
  induction ds with
  | nil => simp
  | cons d ds ih =>
    simp only [List.map_cons, List.sum_cons] at h
    have hd : d = [] := List.length_eq_zero.mp (by omega)
    have := ih (by omega)
    simp [hd, this]

/-! ## Lemmas: device-tracker endpoints -/

theorem foldl_push_eq_append_map {α β : Type} (g : α → β) (l : List α) (init : List β) :
    l.foldl (fun acc x => acc ++ [g x]) init = init ++ l.map g := by
  induction l generalizing init with
  | nil => simp
  | cons x xs ih => simp [ih, List.append_assoc]

theorem do_readonly_device_work_pred_aux (p : kis_tracked_device_base → Bool)
    (devs acc : List kis_tracked_device_base) :
    devs.foldl (fun (a : List kis_tracked_device_base × Unit) d =>
        ((if p d then a.1 ++ [d] else a.1), ())) (acc, ())
      = (acc ++ devs.filter p, ()) := by
  induction devs generalizing acc with
  | nil => simp
  | cons d ds ih =>
    simp only [List.foldl_cons, ih, List.filter_cons]
    cases p d <;> simp

theorem do_readonly_device_work_pred (p : kis_tracked_device_base → Bool)
    (devs : List kis_tracked_device_base) :
    (do_readonly_device_work devs (fun (_ : Unit) d => (p d, ())) ()).1 = devs.filter p := by
  unfold do_readonly_device_work
  have := do_readonly_device_work_pred_aux p devs []
  simp only [List.nil_append] at this
  simp [this]

theorem wrap_long_of_range (x : Int) (h1 : -(2 ^ 63) ≤ x) (h2 : x < 2 ^ 63) :
    wrap_long x = x := by
  unfold wrap_long
  rw [Int.emod_eq_of_lt (by omega) (by omega)]
  omega

theorem last_time_worker_eq (lastts : Int) :
    last_time_worker lastts = fun d => decide (lastts < d.last_time) := by
  funext d
  unfold last_time_worker kis_tracked_device_base.get_last_time
  by_cases h : d.last_time ≤ lastts
  · simp [h]
  · simp [h]; omega

theorem get_by_mac_devvec_eq (mm : List (mac_addr × kis_tracked_device_base))
    (mac : mac_addr) :
    get_by_mac_devvec mm mac = (multimap_equal_range mm mac).map Prod.snd := by
  unfold get_by_mac_devvec
  rw [foldl_push_eq_append_map]
  simp

theorem post_by_mac_devvec_eq (mm : List (mac_addr × kis_tracked_device_base))
    (mac : mac_addr) (sv : List tracker_element_summary) :
    post_by_mac_devvec mm mac sv
      = (multimap_equal_range mm mac).map
          (fun e => SummarizeSingletracker_element e.2 sv) := by
  unfold post_by_mac_devvec
  rw [foldl_push_eq_append_map]
  simp

theorem post_last_time_outdevs_eq (devs : List kis_tracked_device_base)
    (sv : List tracker_element_summary) :
    post_last_time_outdevs devs sv
      = devs.map (fun d => SummarizeSingletracker_element d sv) := by
  unfold post_last_time_outdevs
  rw [foldl_push_eq_append_map]
  simp

theorem multimap_equal_range_length (mm : List (mac_addr × kis_tracked_device_base))
    (mac : mac_addr) :
    (multimap_equal_range mm mac).length = multimap_count mm mac := by
  unfold multimap_equal_range multimap_count
  rw [List.countP_eq_length_filter]

theorem multimac_ret_devices_aux (mm : List (mac_addr × kis_tracked_device_base))
    (macs : List mac_addr) (init : List kis_tracked_device_base) :
    macs.foldl (fun ret_devices m =>
        (multimap_equal_range mm m).foldl
          (fun ret_devices msi => ret_devices ++ [msi.2]) ret_devices) init
      = init ++ macs.flatMap (fun m => (multimap_equal_range mm m).map Prod.snd) := by
  induction macs generalizing init with
  | nil => simp
  | cons m ms ih =>
    simp only [List.foldl_cons, List.flatMap_cons]
    rw [foldl_push_eq_append_map Prod.snd, ih, List.append_assoc]

theorem multimac_parse_ok (E : Env) (strs : List String) (macs : List mac_addr)
    (hok : ∀ s ∈ strs, (E.mac_addr s).error = false) :
    multimac_parse E (strs.map structured_data.str) macs
      = .ok (macs ++ strs.map E.mac_addr) := by
  induction strs generalizing macs with
  | nil => simp [multimac_parse]
  | cons s ss ih =>
    have hs : (E.mac_addr s).error = false := hok s (by simp)
    have := ih (macs ++ [E.mac_addr s]) (fun t ht => hok t (by simp [ht]))
    simp [multimac_parse, structured_data.as_string, hs, this, List.append_assoc]

theorem parse_fields_returned (fvec : List structured_data)
    (sv : List tracker_element_summary) (msg : String)
    (h : parse_fields fvec sv = .error (Abort.returned msg)) :
    msg = "Invalid request: Expected field, rename" := by
  induction fvec generalizing sv with
  | nil => simp [parse_fields] at h
  | cons i rest ih =>
    unfold parse_fields at h
    split at h
    · split at h
      · simp at h
      · exact ih _ h
    · split at h
      · split at h
        · simp at h
        · split at h
          · simp at h
            exact h.symm
          · split at h
            · exact ih _ h
            · simp at h
      · exact ih _ h

theorem parse_command_returned (now : Int) (sd : structured_data) (msg : String)
    (h : parse_command now sd = .error (Abort.returned msg)) :
    msg = "Invalid request: Expected field, rename" := by
  unfold parse_command at h
  simp only at h
  split at h
  · rename_i a hf
    simp only [Except.error.injEq] at h
    subst h
    split at hf
    · split at hf
      · simp at hf
      · split at hf
        · simp at hf
        · exact parse_fields_returned _ _ _ hf
    · simp at hf
  · split at h
    · simp at h
    · split at h
      · rename_i a hr
        simp only [Except.error.injEq] at h
        subst h
        split at hr
        · split at hr <;> simp at hr
        · simp at hr
      · split at h
        · split at h <;> simp at h
        · simp at h

theorem five_tokens_of_length (l : List String) (h : ¬ l.length < 5) :
    ∃ t0 t1 t2 t3 t4 rest, l = t0 :: t1 :: t2 :: t3 :: t4 :: rest := by
  rcases l with _ | ⟨t0, _ | ⟨t1, _ | ⟨t2, _ | ⟨t3, _ | ⟨t4, rest⟩⟩⟩⟩⟩
  · exact absurd (by simp) h
  · exact absurd (by simp) h
  · exact absurd (by simp) h
  · exact absurd (by simp) h
  · exact absurd (by simp) h
  · exact ⟨t0, t1, t2, t3, t4, rest, rfl⟩

theorem post_by_mac_outcome (E : Env) (dt : device_tracker)
    (concls : kis_net_httpd_connection) (tokenurl : List String) (cmd : PostCommand) :
    ∃ r, post_by_mac E dt concls tokenurl cmd = some r ∧
      (post_success concls r ∨ reports_error r 400) := by
  unfold post_by_mac
  split
  · exact ⟨_, rfl, Or.inr ⟨rfl, rfl, rfl⟩⟩
  · rename_i h5
    obtain ⟨t0, t1, t2, t3, t4, rest, rfl⟩ := five_tokens_of_length tokenurl h5
    simp only [List.getElem?_cons_succ, List.getElem?_cons_zero, Option.some_bind]
    split
    · exact ⟨_, rfl, Or.inr ⟨rfl, rfl, rfl⟩⟩
    · split
      · exact ⟨_, rfl, Or.inr ⟨rfl, rfl, rfl⟩⟩
      · split
        · exact ⟨_, rfl, Or.inr ⟨rfl, rfl, rfl⟩⟩
        · split
          · exact ⟨_, rfl, Or.inl ⟨rfl, Or.inr ⟨_, _, rfl⟩⟩⟩
          · exact ⟨_, rfl, Or.inr ⟨rfl, rfl, rfl⟩⟩

theorem post_by_key_outcome (E : Env) (dt : device_tracker)
    (concls : kis_net_httpd_connection) (tokenurl : List String)
    (structdata : structured_data) (cmd : PostCommand) :
    ∃ r, post_by_key E dt concls tokenurl structdata cmd = some r ∧
      (post_success concls r ∨ reports_error r 400) := by
  by_cases h5 : tokenurl.length < 5
  · exact ⟨reply_code concls dt [StreamItem.text "Invalid request: Invalid URI"] 400,
      by rw [post_by_key, if_pos h5], Or.inr ⟨rfl, rfl, rfl⟩⟩
  · obtain ⟨t0, t1, t2, t3, t4, rest, rfl⟩ := five_tokens_of_length tokenurl h5
    rw [post_by_key, if_neg h5]
    simp only [List.getElem?_cons_succ, List.getElem?_cons_zero, Option.some_bind]
    split_ifs
    all_goals (cases fetch_device dt (E.device_key t3) <;> try dsimp only)
    all_goals (try (cases structdata.key_as_string "username" <;> try dsimp only))
    all_goals (try (cases structdata.key_as_string "tagname" <;> try dsimp only))
    all_goals (try (cases structdata.key_as_string "tagvalue" <;> try dsimp only))
    all_goals
      first
      | exact ⟨_, rfl, Or.inr ⟨rfl, rfl, rfl⟩⟩
      | exact ⟨_, rfl, Or.inl ⟨rfl, Or.inl rfl⟩⟩
      | exact ⟨_, rfl, Or.inl ⟨rfl, Or.inr ⟨_, _, rfl⟩⟩⟩

theorem post_last_time_outcome (E : Env) (now : Int) (dt : device_tracker)
    (concls : kis_net_httpd_connection) (tokenurl : List String) (cmd : PostCommand) :
    ∃ r, post_last_time E now dt concls tokenurl cmd = some r ∧
      (post_success concls r ∨ reports_error r 400) := by
  unfold post_last_time
  split
  · exact ⟨_, rfl, Or.inr ⟨rfl, rfl, rfl⟩⟩
  · rename_i h5
    obtain ⟨t0, t1, t2, t3, t4, rest, rfl⟩ := five_tokens_of_length tokenurl h5
    simp only [List.getElem?_cons_succ, List.getElem?_cons_zero, Option.some_bind]
    split
    · exact ⟨_, rfl, Or.inr ⟨rfl, rfl, rfl⟩⟩
    · split
      · exact ⟨_, rfl, Or.inr ⟨rfl, rfl, rfl⟩⟩
      · split
        · exact ⟨_, rfl, Or.inr ⟨rfl, rfl, rfl⟩⟩
        · exact ⟨_, rfl, Or.inl ⟨rfl, Or.inr ⟨_, _, rfl⟩⟩⟩

theorem httpd_post_complete_outcome (E : Env) (now : Int) (dt : device_tracker)
    (concls : kis_net_httpd_connection) :
    ∃ r, httpd_post_complete E now dt concls = some r ∧
      (post_success concls r ∨ reports_error r 400) := by
  unfold httpd_post_complete
  simp only
  split
  · exact ⟨_, rfl, Or.inr ⟨rfl, rfl, rfl⟩⟩
  · rename_i h4
    split
    · exact ⟨_, rfl, Or.inr ⟨rfl, rfl, rfl⟩⟩
    · split
      · exact ⟨_, rfl, Or.inr ⟨rfl, rfl, rfl⟩⟩
      · exact ⟨_, rfl, Or.inr ⟨rfl, rfl, rfl⟩⟩
      · rename_i structdata _ _ cmd _
        obtain ⟨t0, t1, t2, rest, htok⟩ :
            ∃ t0 t1 t2 rest, E.str_tokenize concls.url = t0 :: t1 :: t2 :: rest := by
          rcases hl : E.str_tokenize concls.url with _ | ⟨t0, _ | ⟨t1, _ | ⟨t2, rest⟩⟩⟩
          · rw [hl] at h4; exact absurd (by simp) h4
          · rw [hl] at h4; exact absurd (by simp) h4
          · rw [hl] at h4; exact absurd (by simp) h4
          · exact ⟨t0, t1, t2, rest, rfl⟩
        rw [htok]
        simp only [List.getElem?_cons_succ, List.getElem?_cons_zero, Option.some_bind]
        rw [← htok]
        split
        · split
          · exact post_by_mac_outcome E dt concls _ cmd
          · split
            · exact post_by_key_outcome E dt concls _ structdata cmd
            · split
              · exact post_last_time_outcome E now dt concls _ cmd
              · exact ⟨_, rfl, Or.inl ⟨rfl, Or.inl rfl⟩⟩
        · exact ⟨_, rfl, Or.inl ⟨rfl, Or.inl rfl⟩⟩

theorem get_by_key_outcome (E : Env) (dt : device_tracker)
    (connection : kis_net_httpd_connection) (tokenurl : List String) :
    ∃ r, get_by_key E dt connection tokenurl = some r ∧
      (r.httpcode = connection.httpcode ∨ reports_error r 500) := by
  by_cases h5 : tokenurl.length < 5
  · exact ⟨reply_code connection dt [StreamItem.text "Invalid by-key URI\n"] 500,
      by rw [get_by_key, if_pos h5], Or.inr ⟨rfl, rfl, rfl⟩⟩
  · obtain ⟨t0, t1, t2, t3, t4, rest, rfl⟩ := five_tokens_of_length tokenurl h5
    rw [get_by_key, if_neg h5]
    simp only [List.getElem?_cons_succ, List.getElem?_cons_zero, Option.some_bind]
    split_ifs
    all_goals (cases fetch_device dt (E.device_key t3) <;> try dsimp only)
    all_goals (try split)
    all_goals
      first
      | exact ⟨_, rfl, Or.inr ⟨rfl, rfl, rfl⟩⟩
      | exact ⟨_, rfl, Or.inl rfl⟩

theorem get_by_mac_outcome (E : Env) (dt : device_tracker)
    (connection : kis_net_httpd_connection) (tokenurl : List String) :
    ∃ r, get_by_mac E dt connection tokenurl = some r ∧
      r.httpcode = connection.httpcode := by
  by_cases h5 : tokenurl.length < 5
  · exact ⟨reply connection dt [], by rw [get_by_mac, if_pos h5], rfl⟩
  · obtain ⟨t0, t1, t2, t3, t4, rest, rfl⟩ := five_tokens_of_length tokenurl h5
    rw [get_by_mac, if_neg h5]
    simp only [List.getElem?_cons_succ, List.getElem?_cons_zero, Option.some_bind]
    split_ifs
    all_goals exact ⟨_, rfl, rfl⟩

theorem get_last_time_outcome (E : Env) (now : Int) (dt : device_tracker)
    (connection : kis_net_httpd_connection) (tokenurl : List String) :
    ∃ r, get_last_time E now dt connection tokenurl = some r ∧
      r.httpcode = connection.httpcode := by
  by_cases h5 : tokenurl.length < 5
  · exact ⟨reply connection dt [], by rw [get_last_time, if_pos h5], rfl⟩
  · obtain ⟨t0, t1, t2, t3, t4, rest, rfl⟩ := five_tokens_of_length tokenurl h5
    rw [get_last_time, if_neg h5]
    simp only [List.getElem?_cons_succ, List.getElem?_cons_zero, Option.some_bind]
    cases E.sscanf_ld t3 <;> dsimp only
    · exact ⟨_, rfl, rfl⟩
    · split_ifs
      all_goals exact ⟨_, rfl, rfl⟩

theorem httpd_create_stream_response_outcome (E : Env) (now : Int) (dt : device_tracker)
    (connection : kis_net_httpd_connection) (path method : String) :
    ∃ r, httpd_create_stream_response E now dt connection path method = some r ∧
      (r.httpcode = connection.httpcode ∨ reports_error r 500) := by
  unfold httpd_create_stream_response
  by_cases hm : method ≠ "GET"
  · exact ⟨_, by rw [if_pos hm], Or.inl rfl⟩
  rw [if_neg hm]
  by_cases hp : path = "/devices/all_devices.ekjson"
  · exact ⟨_, by rw [if_pos hp], Or.inl rfl⟩
  rw [if_neg hp]
  dsimp only
  by_cases h2 : (E.str_tokenize path).length < 2
  · exact ⟨_, by rw [if_pos h2], Or.inl rfl⟩
  rw [if_neg h2]
  by_cases h5 : (E.str_tokenize path).length < 5
  · obtain ⟨t0, t1, rest, htok⟩ :
        ∃ t0 t1 rest, E.str_tokenize path = t0 :: t1 :: rest := by
      rcases hl : E.str_tokenize path with _ | ⟨t0, _ | ⟨t1, rest⟩⟩
      · rw [hl] at h2; exact absurd (by simp) h2
      · rw [hl] at h2; exact absurd (by simp) h2
      · exact ⟨t0, t1, rest, rfl⟩
    rw [htok] at h5 ⊢
    simp only [List.getElem?_cons_succ, List.getElem?_cons_zero, Option.some_bind, if_pos h5]
    split_ifs
    all_goals exact ⟨_, rfl, Or.inl rfl⟩
  · obtain ⟨t0, t1, t2, t3, t4, rest, htok⟩ := five_tokens_of_length _ h5
    rw [if_neg h5]
    have h1 : (E.str_tokenize path)[1]? = some t1 := by rw [htok]; rfl
    have h2' : (E.str_tokenize path)[2]? = some t2 := by rw [htok]; rfl
    rw [h1, h2']
    simp only [Option.some_bind]
    split_ifs
    · obtain ⟨r, hr, hc⟩ := get_by_key_outcome E dt connection (E.str_tokenize path)
      exact ⟨r, hr, hc⟩
    · obtain ⟨r, hr, hc⟩ := get_by_mac_outcome E dt connection (E.str_tokenize path)
      exact ⟨r, hr, Or.inl hc⟩
    · obtain ⟨r, hr, hc⟩ := get_last_time_outcome E now dt connection (E.str_tokenize path)
      exact ⟨r, hr, Or.inl hc⟩
    · exact ⟨_, rfl, Or.inl rfl⟩
    · exact ⟨_, rfl, Or.inl rfl⟩

theorem multimac_endp_handler_outcome (E : Env) (dt : device_tracker) (uri : String)
    (structured : structured_data) :
    ((multimac_endp_handler E dt uri structured).status = 200 ∧
      ∃ output, (multimac_endp_handler E dt uri structured).stream
        = [StreamItem.serialized (E.get_suffix uri) output true]) ∨
    ((multimac_endp_handler E dt uri structured).status = 500 ∧
      ∃ what, (multimac_endp_handler E dt uri structured).stream
        = [StreamItem.text "Invalid request: ", StreamItem.text what,
           StreamItem.text "\n"]) := by
  unfold multimac_endp_handler
  cases multimac_try E dt structured with
  | ok output => exact Or.inl ⟨rfl, output, rfl⟩
  | error what => exact Or.inr ⟨rfl, what, rfl⟩

/-! ## Lemmas: mutating requests -/

theorem key_as_string_has_key (sd : structured_data) (key s : String)
    (h : sd.key_as_string key = .ok s) : sd.has_key key = true := by
  unfold structured_data.key_as_string at h
  unfold structured_data.has_key
  cases hl : sd.lookup key with
  | none => rw [hl] at h; simp at h
  | some v => rfl

theorem post_by_key_without_session (E : Env) (dt : device_tracker)
    (concls : kis_net_httpd_connection) (t0 t1 t2 t3 t4 : String) (rest : List String)
    (structdata : structured_data) (cmd : PostCommand)
    (htarget : E.httpd_strip_suffix t4 = "set_name" ∨ E.httpd_strip_suffix t4 = "set_tag")
    (hsession : E.has_valid_session concls = false) :
    ∃ items,
      post_by_key E dt concls (t0 :: t1 :: t2 :: t3 :: t4 :: rest) structdata cmd
        = some (reply_code concls dt items 400) ∧
      only_text items = true ∧ items ≠ [StreamItem.text "OK"] := by
  have h5 : ¬ rest.length + 1 + 1 + 1 + 1 + 1 < 5 := by omega
  by_cases hser : E.httpd_can_serialize t4 = true
  · cases hdev : fetch_device dt (E.device_key t3) with
    | none =>
      exact ⟨[StreamItem.text "Invalid request: No device with that key"],
        by simp [post_by_key, h5, hser, hdev], rfl, by decide⟩
    | some dev =>
      refine ⟨[StreamItem.text "Invalid request: ", StreamItem.text "login required"],
        ?_, rfl, by decide⟩
      rcases htarget with ht | ht <;>
        simp [post_by_key, h5, hser, hdev, ht, hsession, post_catch]
  · exact ⟨[StreamItem.text "Invalid request: Cannot serialize field type"],
      by simp [post_by_key, h5, hser], rfl, by decide⟩

/-! ## Lemmas: request bodies -/

theorem multimac_parse_bad_entry (E : Env) (maclist : List structured_data)
    (macs : List mac_addr) (hbad : ∃ m ∈ maclist, parses_as_mac E m = false) :
    ∃ what, multimac_parse E maclist macs = .error what := by
  induction maclist generalizing macs with
  | nil => simp at hbad
  | cons m rest ih =>
    unfold multimac_parse
    cases hs : m.as_string with
    | error e => exact ⟨e, rfl⟩
    | ok str =>
      dsimp only
      by_cases herr : (E.mac_addr str).error = true
      · rw [if_pos herr]
        exact ⟨_, rfl⟩
      · rw [if_neg herr]
        apply ih
        obtain ⟨b, hb, hbb⟩ := hbad
        rcases List.mem_cons.mp hb with rfl | hb'
        · simp [parses_as_mac, hs, herr] at hbb
        · exact ⟨b, hb', hbb⟩

theorem multimac_parse_congr (E E2 : Env) (hmac : E2.mac_addr = E.mac_addr)
    (hesc : E2.escape_html = E.escape_html) (maclist : List structured_data)
    (macs : List mac_addr) :
    multimac_parse E2 maclist macs = multimac_parse E maclist macs := by
  induction maclist generalizing macs with
  | nil => rfl
  | cons m rest ih =>
    unfold multimac_parse
    cases m.as_string with
    | error e => rfl
    | ok str => simp only [hmac, hesc, ih]

theorem mapM_as_string_strs (ss : List String) :
    (ss.map structured_data.str).mapM structured_data.as_string
      = (.ok ss : Except String (List String)) := by
  induction ss with
  | nil => rfl
  | cons s rest ih =>
    rw [List.map_cons, List.mapM_cons, ih]
    rfl

theorem as_string_vector_strings (ss : List String) :
    (structured_data.arr (ss.map structured_data.str)).as_string_vector = .ok ss := by
  unfold structured_data.as_string_vector
  exact mapM_as_string_strs ss

theorem parse_fields_well_formed (entries : List FieldEntry)
    (sv : List tracker_element_summary)
    (hwf : ∀ e ∈ entries, e.well_formed = true) :
    parse_fields (entries.map FieldEntry.encode) sv
      = .ok (sv ++ entries.map FieldEntry.selector) := by
  induction entries generalizing sv with
  | nil => simp [parse_fields]
  | cons e rest ih =>
    have hrest : ∀ x ∈ rest, x.well_formed = true := fun x hx => hwf x (by simp [hx])
    have he := hwf e (by simp)
    cases e with
    | path p =>
      simp [parse_fields, FieldEntry.encode, structured_data.is_string,
        structured_data.as_string, ih _ hrest, FieldEntry.selector]
    | strings ss =>
      simp only [FieldEntry.well_formed, beq_iff_eq] at he
      match ss, he with
      | [p, a], _ =>
        simp [parse_fields, FieldEntry.encode, structured_data.is_string,
          structured_data.is_array, ih _ hrest, FieldEntry.selector,
          structured_data.as_string_vector, structured_data.as_string]
        rfl

theorem parse_fields_ill_formed (entries : List FieldEntry)
    (sv : List tracker_element_summary)
    (hbad : ∃ e ∈ entries, e.well_formed = false) :
    parse_fields (entries.map FieldEntry.encode) sv
      = .error (Abort.returned "Invalid request: Expected field, rename") := by
  induction entries generalizing sv with
  | nil => simp at hbad
  | cons e rest ih =>
    by_cases he : e.well_formed = true
    · have hrest : ∃ x ∈ rest, x.well_formed = false := by
        obtain ⟨b, hb, hbb⟩ := hbad
        rcases List.mem_cons.mp hb with rfl | hb'
        · rw [he] at hbb; exact absurd hbb (by decide)
        · exact ⟨b, hb', hbb⟩
      cases e with
      | path p =>
        simp [parse_fields, FieldEntry.encode, structured_data.is_string,
          structured_data.as_string, ih _ hrest]
      | strings ss =>
        simp only [FieldEntry.well_formed, beq_iff_eq] at he
        match ss, he with
        | [p, a], _ =>
          simp [parse_fields, FieldEntry.encode, structured_data.is_string,
            structured_data.is_array, ih _ hrest,
            structured_data.as_string_vector, structured_data.as_string]
          rfl
    · cases e with
      | path p => simp [FieldEntry.well_formed] at he
      | strings ss =>
        simp only [FieldEntry.well_formed, beq_iff_eq] at he
        have hv := as_string_vector_strings ss
        simp only [List.map_cons, FieldEntry.encode, parse_fields, structured_data.is_string,
          structured_data.is_array, hv]
        simp [he]

/-! ## Lemmas: packet components -/

theorem packet_constructor_length (MAX_PACKET_COMPONENTS : Nat) :
    (kis_packet.kis_packet MAX_PACKET_COMPONENTS).content_vec.length
      = MAX_PACKET_COMPONENTS := by
  simp [kis_packet.kis_packet]

theorem packet_insert_length (MAX_PACKET_COMPONENTS : Nat) (p : kis_packet) (index : Nat)
    (data : Option packet_component) :
    (kis_packet.insert MAX_PACKET_COMPONENTS p index data).packet.content_vec.length
      = p.content_vec.length := by
  unfold kis_packet.insert
  split <;> simp

theorem packet_erase_length (MAX_PACKET_COMPONENTS : Nat) (p : kis_packet) (index : Nat) :
    (kis_packet.erase MAX_PACKET_COMPONENTS p index).packet.content_vec.length
      = p.content_vec.length := by
  unfold kis_packet.erase
  split
  · rfl
  · split <;> simp

theorem getD_set_self (l : List (Option packet_component)) (i : Nat)
    (d : Option packet_component) (h : i < l.length) :
    (l.set i d)[i]?.getD none = d := by
  simp [List.getElem?_set, h]

theorem getD_set_other (l : List (Option packet_component)) (i j : Nat)
    (d : Option packet_component) (h : j ≠ i) :
    (l.set i d)[j]?.getD none = l[j]?.getD none := by
  simp [List.getElem?_set, Ne.symm h]

/-! ## Lemmas: `httpd_verify_path` always answers -/

theorem verify_get_by_key_total (E : Env) (dt : device_tracker) (tokenurl : List String) :
    ∃ b, verify_get_by_key E dt tokenurl = some b := by
  by_cases h5 : tokenurl.length < 5
  · exact ⟨false, by rw [verify_get_by_key, if_pos h5]⟩
  · obtain ⟨t0, t1, t2, t3, t4, rest, rfl⟩ := five_tokens_of_length tokenurl h5
    rw [verify_get_by_key, if_neg h5]
    simp only [List.getElem?_cons_succ, List.getElem?_cons_zero, Option.some_bind]
    split_ifs
    all_goals (try split)
    all_goals (try split_ifs)
    all_goals exact ⟨_, rfl⟩

theorem verify_by_mac_total (E : Env) (dt : device_tracker) (tokenurl : List String) :
    ∃ b, verify_by_mac E dt tokenurl = some b := by
  by_cases h5 : tokenurl.length < 5
  · exact ⟨false, by rw [verify_by_mac, if_pos h5]⟩
  · obtain ⟨t0, t1, t2, t3, t4, rest, rfl⟩ := five_tokens_of_length tokenurl h5
    rw [verify_by_mac, if_neg h5]
    simp only [List.getElem?_cons_succ, List.getElem?_cons_zero, Option.some_bind]
    split_ifs
    all_goals exact ⟨_, rfl⟩

theorem verify_get_last_time_total (E : Env) (tokenurl : List String) :
    ∃ b, verify_get_last_time E tokenurl = some b := by
  by_cases h5 : tokenurl.length < 5
  · exact ⟨false, by rw [verify_get_last_time, if_pos h5]⟩
  · obtain ⟨t0, t1, t2, t3, t4, rest, rfl⟩ := five_tokens_of_length tokenurl h5
    rw [verify_get_last_time, if_neg h5]
    simp only [List.getElem?_cons_succ, List.getElem?_cons_zero, Option.some_bind]
    cases E.sscanf_ld t3 <;> dsimp only
    · exact ⟨_, rfl⟩
    · split_ifs
      all_goals exact ⟨_, rfl⟩

theorem verify_post_last_time_total (E : Env) (tokenurl : List String) :
    ∃ b, verify_post_last_time E tokenurl = some b := by
  by_cases h5 : tokenurl.length < 5
  · exact ⟨false, by rw [verify_post_last_time, if_pos h5]⟩
  · obtain ⟨t0, t1, t2, t3, t4, rest, rfl⟩ := five_tokens_of_length tokenurl h5
    rw [verify_post_last_time, if_neg h5]
    simp only [List.getElem?_cons_succ, List.getElem?_cons_zero, Option.some_bind]
    cases E.sscanf_ld t3 <;> dsimp only
    · exact ⟨_, rfl⟩
    · exact ⟨_, rfl⟩

theorem verify_post_by_key_total (E : Env) (dt : device_tracker) (tokenurl : List String) :
    ∃ b, verify_post_by_key E dt tokenurl = some b := by
  by_cases h5 : tokenurl.length < 5
  · exact ⟨false, by rw [verify_post_by_key, if_pos h5]⟩
  · obtain ⟨t0, t1, t2, t3, t4, rest, rfl⟩ := five_tokens_of_length tokenurl h5
    rw [verify_post_by_key, if_neg h5]
    simp only [List.getElem?_cons_succ, List.getElem?_cons_zero, Option.some_bind]
    split_ifs
    all_goals exact ⟨_, rfl⟩

theorem two_tokens_of_length (l : List String) (h : ¬ l.length < 2) :
    ∃ t0 t1 rest, l = t0 :: t1 :: rest := by
  rcases l with _ | ⟨t0, _ | ⟨t1, rest⟩⟩
  · exact absurd (by simp) h
  · exact absurd (by simp) h
  · exact ⟨t0, t1, rest, rfl⟩

theorem httpd_verify_path_total (E : Env) (dt : device_tracker) (path method : String) :
    ∃ b, httpd_verify_path E dt path method = some b := by
  unfold httpd_verify_path
  by_cases hg : method = "GET"
  · rw [if_pos hg]
    by_cases hp : path = "/devices/all_devices.ekjson"
    · exact ⟨true, by rw [if_pos hp]⟩
    rw [if_neg hp]
    dsimp only
    by_cases h2 : (E.str_tokenize path).length < 2
    · exact ⟨false, by rw [if_pos h2]⟩
    rw [if_neg h2]
    obtain ⟨t0, t1, rest, htok⟩ := two_tokens_of_length _ h2
    have h1 : (E.str_tokenize path)[1]? = some t1 := by rw [htok]; simp
    rw [h1]
    simp only [Option.some_bind]
    by_cases hd : t1 = "devices"
    · rw [if_pos hd]
      by_cases h3 : (E.str_tokenize path).length < 3
      · exact ⟨false, by rw [if_pos h3]⟩
      rw [if_neg h3]
      obtain ⟨t2, rest2, hrest⟩ : ∃ t2 rest2, rest = t2 :: rest2 := by
        rcases rest with _ | ⟨t2, rest2⟩
        · rw [htok] at h3; exact absurd (by simp) h3
        · exact ⟨t2, rest2, rfl⟩
      have h2' : (E.str_tokenize path)[2]? = some t2 := by rw [htok, hrest]; simp
      rw [h2']
      simp only [Option.some_bind]
      split_ifs
      · exact verify_get_by_key_total E dt _
      · exact verify_by_mac_total E dt _
      · exact verify_get_last_time_total E _
      · exact ⟨_, rfl⟩
    · exact ⟨false, by rw [if_neg hd]⟩
  · rw [if_neg hg]
    by_cases hpo : method = "POST"
    · rw [if_pos hpo]
      dsimp only
      by_cases h2 : (E.str_tokenize path).length < 2
      · exact ⟨false, by rw [if_pos h2]⟩
      rw [if_neg h2]
      obtain ⟨t0, t1, rest, htok⟩ := two_tokens_of_length _ h2
      have h1 : (E.str_tokenize path)[1]? = some t1 := by rw [htok]; simp
      rw [h1]
      simp only [Option.some_bind]
      by_cases hd : t1 = "devices"
      · rw [if_pos hd]
        by_cases h4 : (E.str_tokenize path).length < 4
        · exact ⟨false, by rw [if_pos h4]⟩
        rw [if_neg h4]
        obtain ⟨t2, rest2, hrest⟩ : ∃ t2 rest2, rest = t2 :: rest2 := by
          rcases rest with _ | ⟨t2, rest2⟩
          · rw [htok] at h4; exact absurd (by simp) h4
          · exact ⟨t2, rest2, rfl⟩
        have h2' : (E.str_tokenize path)[2]? = some t2 := by rw [htok, hrest]; simp
        rw [h2']
        simp only [Option.some_bind]
        split_ifs
        · exact verify_post_last_time_total E _
        · exact verify_post_by_key_total E dt _
        · exact verify_by_mac_total E dt _
        · exact ⟨_, rfl⟩
      · exact ⟨false, by rw [if_neg hd]⟩
    · exact ⟨false, by rw [if_neg hpo]⟩

/-! ## Lemmas: the body's `last_time` -/

theorem find_map_last_time (l : List (String × structured_data)) (n : Int) (key : String) :
    ((l.map fun e => if e.1 = "last_time" then (e.1, structured_data.num n) else e).find?
        (fun e => e.1 = key)).map Prod.snd
      = ((l.find? (fun e => e.1 = key)).map Prod.snd).map
          (fun v => if key = "last_time" then structured_data.num n else v) := by
  induction l with
  | nil => simp
  | cons e rest ih =>
    by_cases hk : e.1 = key
    · by_cases hl : e.1 = "last_time"
      · have hkl : key = "last_time" := hk ▸ hl
        simp [List.find?_cons, hk, hl, hkl]
      · have hkl : ¬ key = "last_time" := fun h => hl (hk.trans h)
        simp [List.find?_cons, hk, hl, hkl]
    · by_cases hl : e.1 = "last_time"
      · simp only [List.map_cons, hl, if_true, List.find?_cons]
        have h1 : decide ("last_time" = key) = false := by
          simp only [decide_eq_false_iff_not]
          exact fun h => hk (hl.trans h)
        have h2 : decide (e.1 = key) = false := by simpa using hk
        simp only [h1, h2]
        exact ih
      · simp only [List.map_cons, hl, if_false, List.find?_cons]
        have h2 : decide (e.1 = key) = false := by simpa using hk
        simp only [h2]
        exact ih

theorem lookup_with_last_time (sd : structured_data) (n : Int) (key : String) :
    (with_last_time sd n).lookup key
      = (sd.lookup key).map (fun v => if key = "last_time" then structured_data.num n else v) := by
  cases sd with
  | dict l => simpa [with_last_time, structured_data.lookup] using find_map_last_time l n key
  | str s => simp [with_last_time, structured_data.lookup]
  | num k => simp [with_last_time, structured_data.lookup]
  | arr l => simp [with_last_time, structured_data.lookup]
  | other => simp [with_last_time, structured_data.lookup]

theorem lookup_with_last_time_other (sd : structured_data) (n : Int) (key : String)
    (hk : key ≠ "last_time") : (with_last_time sd n).lookup key = sd.lookup key := by
  rw [lookup_with_last_time]
  simp [hk]

theorem parse_command_with_last_time (now : Int) (sd : structured_data) (n m : Int) :
    (parse_command now (with_last_time sd n)).map PostCommand.used
      = (parse_command now (with_last_time sd m)).map PostCommand.used := by
  unfold parse_command
  simp only [structured_data.has_key, structured_data.get_structured_by_key,
    structured_data.key_as_string_def, structured_data.key_as_number,
    lookup_with_last_time_other _ _ "fields" (by decide),
    lookup_with_last_time_other _ _ "wrapper" (by decide),
    lookup_with_last_time_other _ _ "regex" (by decide), lookup_with_last_time]
  cases sd.lookup "last_time" with
  | none => rfl
  | some v =>
    simp only [Option.map_some', if_true, Option.isSome_some, structured_data.as_number]
    split
    · rfl
    · split
      · rfl
      · split
        · rfl
        · rfl

theorem post_by_mac_congr (E : Env) (dt : device_tracker) (concls : kis_net_httpd_connection)
    (vc : List (String × String)) (tokenurl : List String) (cmd1 cmd2 : PostCommand)
    (h : cmd1.used = cmd2.used) :
    post_by_mac E dt { concls with variable_cache := vc } tokenurl cmd2
      = post_by_mac E dt concls tokenurl cmd1 := by
  have hsv : cmd2.summary_vec = cmd1.summary_vec := (congrArg Prod.fst h).symm
  unfold post_by_mac
  simp only [hsv]
  rfl

theorem post_by_key_congr (E : Env) (dt : device_tracker) (concls : kis_net_httpd_connection)
    (vc : List (String × String)) (tokenurl : List String) (sd : structured_data)
    (n m : Int) (cmd1 cmd2 : PostCommand) (h : cmd1.used = cmd2.used)
    (hs : E.has_valid_session { concls with variable_cache := vc }
      = E.has_valid_session concls) :
    post_by_key E dt { concls with variable_cache := vc } tokenurl (with_last_time sd m) cmd2
      = post_by_key E dt concls tokenurl (with_last_time sd n) cmd1 := by
  have hsv : cmd2.summary_vec = cmd1.summary_vec := (congrArg Prod.fst h).symm
  unfold post_by_key
  simp only [hsv, hs, structured_data.has_key, structured_data.key_as_string,
    lookup_with_last_time_other _ _ "username" (by decide),
    lookup_with_last_time_other _ _ "tagname" (by decide),
    lookup_with_last_time_other _ _ "tagvalue" (by decide)]
  rfl

theorem post_last_time_congr (E : Env) (now : Int) (dt : device_tracker)
    (concls : kis_net_httpd_connection) (vc : List (String × String))
    (tokenurl : List String) (cmd1 cmd2 : PostCommand) (h : cmd1.used = cmd2.used) :
    post_last_time E now dt { concls with variable_cache := vc } tokenurl cmd2
      = post_last_time E now dt concls tokenurl cmd1 := by
  have hsv : cmd2.summary_vec = cmd1.summary_vec := (congrArg Prod.fst h).symm
  have hrx : cmd2.regexdata = cmd1.regexdata :=
    (congrArg (fun u => u.2.2) h).symm
  unfold post_last_time
  simp only [hsv, hrx]
  rfl

/-! ## Theorems -/

/-- C1: a handler constructed with read size 0 (resp. write size 0) answers, after any
sequence of calls, 0 to `Get*BufferSize`, `Get*BufferUsed`, `Get*BufferFree` of that
direction, and every `Get*BufferData`, `Peek*BufferData`, `Put*BufferData` on it returns 0
(copying nothing, notifying nobody) for every input, whatever the other direction's
capacity. -/
theorem C1_zero_capacity_direction (other_sz : Nat) (rn wn : Option RingbufferInterface)
    (calls : List HandlerCall) :
    (let h := runCalls (RingbufferHandler.RingbufferHandler 0 other_sz rn wn) calls
     RingbufferHandler.GetReadBufferSize h = 0 ∧ RingbufferHandler.GetReadBufferUsed h = 0 ∧
     RingbufferHandler.GetReadBufferFree h = 0 ∧
     (∀ in_sz, (RingbufferHandler.GetReadBufferData h in_sz).ret = 0 ∧
        (RingbufferHandler.GetReadBufferData h in_sz).copied = []) ∧
     (∀ in_sz, (RingbufferHandler.PeekReadBufferData h in_sz).ret = 0 ∧
        (RingbufferHandler.PeekReadBufferData h in_sz).copied = []) ∧
     (∀ data, (RingbufferHandler.PutReadBufferData h data).ret = 0 ∧
        (RingbufferHandler.PutReadBufferData h data).notified = [])) ∧
    (let h := runCalls (RingbufferHandler.RingbufferHandler other_sz 0 rn wn) calls
     RingbufferHandler.GetWriteBufferSize h = 0 ∧ RingbufferHandler.GetWriteBufferUsed h = 0 ∧
     RingbufferHandler.GetWriteBufferFree h = 0 ∧
     (∀ in_sz, (RingbufferHandler.GetWriteBufferData h in_sz).ret = 0 ∧
        (RingbufferHandler.GetWriteBufferData h in_sz).copied = []) ∧
     (∀ in_sz, (RingbufferHandler.PeekWriteBufferData h in_sz).ret = 0 ∧
        (RingbufferHandler.PeekWriteBufferData h in_sz).copied = []) ∧
     (∀ data, (RingbufferHandler.PutWriteBufferData h data).ret = 0 ∧
        (RingbufferHandler.PutWriteBufferData h data).notified = [])) := by
  have hr := runCalls_read_buffer_none calls
    (RingbufferHandler.RingbufferHandler 0 other_sz rn wn)
    (by simp [RingbufferHandler.RingbufferHandler])
  have hw := runCalls_write_buffer_none calls
    (RingbufferHandler.RingbufferHandler other_sz 0 rn wn)
    (by simp [RingbufferHandler.RingbufferHandler])
  constructor
  · simp [RingbufferHandler.GetReadBufferSize, RingbufferHandler.GetReadBufferUsed,
      RingbufferHandler.GetReadBufferFree, RingbufferHandler.GetReadBufferData,
      RingbufferHandler.PeekReadBufferData, RingbufferHandler.PutReadBufferData, hr]
  · simp [RingbufferHandler.GetWriteBufferSize, RingbufferHandler.GetWriteBufferUsed,
      RingbufferHandler.GetWriteBufferFree, RingbufferHandler.GetWriteBufferData,
      RingbufferHandler.PeekWriteBufferData, RingbufferHandler.PutWriteBufferData, hw]

/-- C2: on a direction with a buffer (non-zero capacity), `PutReadBufferData` (resp.
`PutWriteBufferData`) returns the number of bytes the buffer accepted and makes exactly one
callback, to the observer registered for that direction, with that number as argument, and
none to the other direction's observer; after `Remove*BufferInterface` or
`Set*BufferInterface` with a null observer it makes no callback and returns the same
count. -/
theorem C2_put_notifies_registered_observer (h : RingbufferHandler) (data : List Nat)
    (obs : RingbufferInterface) :
    (h.read_buffer ≠ none →
      (RingbufferHandler.PutReadBufferData h data).ret
        = min data.length (RingbufferHandler.GetReadBufferFree h) ∧
      (RingbufferHandler.PutReadBufferData h data).notified
        = (match h.rbuf_notify with
           | some o => [Notification.ReadBufferFilled o
                         (RingbufferHandler.PutReadBufferData h data).ret]
           | none => []) ∧
      (RingbufferHandler.PutReadBufferData
          (RingbufferHandler.SetReadBufferInterface h (some obs)) data).notified
        = [Notification.ReadBufferFilled obs
            (RingbufferHandler.PutReadBufferData
              (RingbufferHandler.SetReadBufferInterface h (some obs)) data).ret] ∧
      (RingbufferHandler.PutReadBufferData
          (RingbufferHandler.SetReadBufferInterface h (some obs)) data).ret
        = min data.length (RingbufferHandler.GetReadBufferFree h) ∧
      (RingbufferHandler.PutReadBufferData
          (RingbufferHandler.RemoveReadBufferInterface h) data).notified = [] ∧
      (RingbufferHandler.PutReadBufferData
          (RingbufferHandler.RemoveReadBufferInterface h) data).ret
        = min data.length (RingbufferHandler.GetReadBufferFree h) ∧
      (RingbufferHandler.PutReadBufferData
          (RingbufferHandler.SetReadBufferInterface h none) data).notified = [] ∧
      (RingbufferHandler.PutReadBufferData
          (RingbufferHandler.SetReadBufferInterface h none) data).ret
        = min data.length (RingbufferHandler.GetReadBufferFree h)) ∧
    (h.write_buffer ≠ none →
      (RingbufferHandler.PutWriteBufferData h data).ret
        = min data.length (RingbufferHandler.GetWriteBufferFree h) ∧
      (RingbufferHandler.PutWriteBufferData h data).notified
        = (match h.wbuf_notify with
           | some o => [Notification.WriteBufferFilled o
                         (RingbufferHandler.PutWriteBufferData h data).ret]
           | none => []) ∧
      (RingbufferHandler.PutWriteBufferData
          (RingbufferHandler.SetWriteBufferInterface h (some obs)) data).notified
        = [Notification.WriteBufferFilled obs
            (RingbufferHandler.PutWriteBufferData
              (RingbufferHandler.SetWriteBufferInterface h (some obs)) data).ret] ∧
      (RingbufferHandler.PutWriteBufferData
          (RingbufferHandler.SetWriteBufferInterface h (some obs)) data).ret
        = min data.length (RingbufferHandler.GetWriteBufferFree h) ∧
      (RingbufferHandler.PutWriteBufferData
          (RingbufferHandler.RemoveWriteBufferInterface h) data).notified = [] ∧
      (RingbufferHandler.PutWriteBufferData
          (RingbufferHandler.RemoveWriteBufferInterface h) data).ret
        = min data.length (RingbufferHandler.GetWriteBufferFree h) ∧
      (RingbufferHandler.PutWriteBufferData
          (RingbufferHandler.SetWriteBufferInterface h none) data).notified = [] ∧
      (RingbufferHandler.PutWriteBufferData
          (RingbufferHandler.SetWriteBufferInterface h none) data).ret
        = min data.length (RingbufferHandler.GetWriteBufferFree h)) := by
  constructor
  · intro hne
    obtain ⟨rb, hrb⟩ := Option.ne_none_iff_exists'.mp hne
    cases hn : h.rbuf_notify <;>
      simp [RingbufferHandler.PutReadBufferData, RingbufferHandler.GetReadBufferFree,
        RingbufferHandler.SetReadBufferInterface, RingbufferHandler.RemoveReadBufferInterface,
        RingbufV2.write, hrb, hn]
  · intro hne
    obtain ⟨wb, hwb⟩ := Option.ne_none_iff_exists'.mp hne
    cases hn : h.wbuf_notify <;>
      simp [RingbufferHandler.PutWriteBufferData, RingbufferHandler.GetWriteBufferFree,
        RingbufferHandler.SetWriteBufferInterface, RingbufferHandler.RemoveWriteBufferInterface,
        RingbufV2.write, hwb, hn]

/-- Witness for C2: a handler with both capacities 4, one byte already stored in each
direction and observers 7 and 9 registered; a put of three bytes. -/
theorem C2_put_notifies_registered_observer_witness :
    (RingbufferHandler.PutReadBufferData
        (runCalls (RingbufferHandler.RingbufferHandler 4 4 (some 7) (some 9))
          [HandlerCall.PutReadBufferData [1], HandlerCall.PutWriteBufferData [2, 3]])
        [5, 6, 7, 8]).notified = [Notification.ReadBufferFilled 7 3] ∧
    (RingbufferHandler.PutWriteBufferData
        (runCalls (RingbufferHandler.RingbufferHandler 4 4 (some 7) (some 9))
          [HandlerCall.PutReadBufferData [1], HandlerCall.PutWriteBufferData [2, 3]])
        [5, 6, 7, 8]).ret = 2 := by
  have h := C2_put_notifies_registered_observer
    (runCalls (RingbufferHandler.RingbufferHandler 4 4 (some 7) (some 9))
      [HandlerCall.PutReadBufferData [1], HandlerCall.PutWriteBufferData [2, 3]])
    [5, 6, 7, 8] 0
  have hr := h.1 (by decide)
  have hw := h.2 (by decide)
  refine ⟨?_, ?_⟩
  · rw [hr.2.1, hr.1]; decide
  · rw [hw.1]; decide

/-- C3: starting from a freshly constructed handler of capacity `C` in the direction, a
sequence of `PutWriteBufferData` (resp. `PutReadBufferData`) calls whose lengths sum to
`W ≤ C` returns each call's full length, and the following `GetWriteBufferData` (resp.
`GetReadBufferData`) calls return the written bytes in write order: calls of sizes `ns`
return, concatenated, the first `ns.sum` bytes written, and one call of size at least `W`
returns all `W` bytes. -/
theorem C3_fifo_within_capacity (C other_sz : Nat) (rn wn : Option RingbufferInterface)
    (ds : List (List Nat)) (hsum : (ds.map List.length).sum ≤ C) :
    ((putWriteSeq (RingbufferHandler.RingbufferHandler other_sz C rn wn) ds).1
        = ds.map List.length ∧
     (∀ ns : List Nat,
        (getWriteSeq (putWriteSeq (RingbufferHandler.RingbufferHandler other_sz C rn wn) ds).2
            ns).flatten = ds.flatten.take ns.sum) ∧
     (∀ n : Nat, (ds.map List.length).sum ≤ n →
        (RingbufferHandler.GetWriteBufferData
          (putWriteSeq (RingbufferHandler.RingbufferHandler other_sz C rn wn) ds).2 n).copied
          = ds.flatten ∧
        (RingbufferHandler.GetWriteBufferData
          (putWriteSeq (RingbufferHandler.RingbufferHandler other_sz C rn wn) ds).2 n).ret
          = (ds.map List.length).sum)) ∧
    ((putReadSeq (RingbufferHandler.RingbufferHandler C other_sz rn wn) ds).1
        = ds.map List.length ∧
     (∀ ns : List Nat,
        (getReadSeq (putReadSeq (RingbufferHandler.RingbufferHandler C other_sz rn wn) ds).2
            ns).flatten = ds.flatten.take ns.sum) ∧
     (∀ n : Nat, (ds.map List.length).sum ≤ n →
        (RingbufferHandler.GetReadBufferData
          (putReadSeq (RingbufferHandler.RingbufferHandler C other_sz rn wn) ds).2 n).copied
          = ds.flatten ∧
        (RingbufferHandler.GetReadBufferData
          (putReadSeq (RingbufferHandler.RingbufferHandler C other_sz rn wn) ds).2 n).ret
          = (ds.map List.length).sum)) := by
  have hlen : ds.flatten.length = (ds.map List.length).sum := by
    simp [List.length_flatten]
  by_cases hC : C = 0
  · subst hC
    obtain ⟨hnil, hmap⟩ := flatten_eq_nil_of_sum_length ds hsum
    have hz : (ds.map List.length).sum = 0 := by omega
    have hw := putWriteSeq_none ds (RingbufferHandler.RingbufferHandler other_sz 0 rn wn)
      (by simp [RingbufferHandler.RingbufferHandler])
    have hr := putReadSeq_none ds (RingbufferHandler.RingbufferHandler 0 other_sz rn wn)
      (by simp [RingbufferHandler.RingbufferHandler])
    refine ⟨⟨?_, ?_, ?_⟩, ?_, ?_, ?_⟩
    · rw [hw.1, hmap]
    · intro ns
      rw [hw.2, hnil, getWriteSeq_none _ _ (by simp [RingbufferHandler.RingbufferHandler])]
      simp
    · intro n _
      rw [hw.2, hnil, hz]
      simp [RingbufferHandler.GetWriteBufferData, RingbufferHandler.RingbufferHandler]
    · rw [hr.1, hmap]
    · intro ns
      rw [hr.2, hnil, getReadSeq_none _ _ (by simp [RingbufferHandler.RingbufferHandler])]
      simp
    · intro n _
      rw [hr.2, hnil, hz]
      simp [RingbufferHandler.GetReadBufferData, RingbufferHandler.RingbufferHandler]
  · have hw := putWriteSeq_fits ds (RingbufferHandler.RingbufferHandler other_sz C rn wn)
      ⟨C, []⟩ (by simp [RingbufferHandler.RingbufferHandler, hC]) (by simpa using hsum)
    have hr := putReadSeq_fits ds (RingbufferHandler.RingbufferHandler C other_sz rn wn)
      ⟨C, []⟩ (by simp [RingbufferHandler.RingbufferHandler, hC]) (by simpa using hsum)
    simp only [List.nil_append] at hw hr
    refine ⟨⟨hw.1, ?_, ?_⟩, hr.1, ?_, ?_⟩
    · intro ns
      rw [getWriteSeq_some ns _ _ hw.2]
    · intro n hn
      simp only [RingbufferHandler.GetWriteBufferData, hw.2, RingbufV2.read]
      rw [List.take_of_length_le (by omega)]
      exact ⟨rfl, hlen⟩
    · intro ns
      rw [getReadSeq_some ns _ _ hr.2]
    · intro n hn
      simp only [RingbufferHandler.GetReadBufferData, hr.2, RingbufV2.read]
      rw [List.take_of_length_le (by omega)]
      exact ⟨rfl, hlen⟩

/-- Witness for C3: capacity 5, writes `[1,2]`, `[]`, `[3,4,5]`. -/
theorem C3_fifo_within_capacity_witness :
    (putWriteSeq (RingbufferHandler.RingbufferHandler 0 5 none none)
        [[1, 2], [], [3, 4, 5]]).1 = [2, 0, 3] ∧
    (getWriteSeq (putWriteSeq (RingbufferHandler.RingbufferHandler 0 5 none none)
        [[1, 2], [], [3, 4, 5]]).2 [1, 3, 4]).flatten = [1, 2, 3, 4, 5] :=
  ⟨(C3_fifo_within_capacity 5 0 none none [[1, 2], [], [3, 4, 5]] (by decide)).1.1,
   (C3_fifo_within_capacity 5 0 none none [[1, 2], [], [3, 4, 5]] (by decide)).1.2.1 [1, 3, 4]⟩

/-- C4: with `ts` the timestamp parsed from the URL and `now` the current time (both in
the range of a `long`, `now` not negative), let `T = ts` when `ts ≥ 0` and `T = now + ts`
when `ts < 0`.  The predicate given to the worker is true exactly on the devices with
`last_time > T` (so not on a device with `last_time = T`); the `GET` handler serializes
exactly the devices of the table with `last_time > T`, and so does the `POST` handler
(after summarizing each) when the body has no `regex`. -/
theorem C4_last_time_predicate (now ts : Int)
    (hts : -(2 ^ 63) ≤ ts ∧ ts < 2 ^ 63) (hnow : 0 ≤ now ∧ now < 2 ^ 63) :
    (∀ d : kis_tracked_device_base,
      last_time_worker (adjust_lastts now ts) d = true
        ↔ d.last_time > (if 0 ≤ ts then ts else now + ts)) ∧
    (∀ (E : Env) (dt : device_tracker) (connection : kis_net_httpd_connection)
       (path t0 t3 t4 : String) (rest : List String),
      path ≠ "/devices/all_devices.ekjson" →
      E.str_tokenize path = t0 :: "devices" :: "last-time" :: t3 :: t4 :: rest →
      E.sscanf_ld t3 = some ts → E.httpd_can_serialize t4 = true →
      httpd_create_stream_response E now dt connection path "GET"
        = some (reply connection dt
            [StreamItem.serialized (E.get_suffix t4)
              (tracker_element.device_vector
                (dt.devices.filter
                  (fun d => decide (d.last_time > (if 0 ≤ ts then ts else now + ts)))))
              false])) ∧
    (∀ (E : Env) (dt : device_tracker) (concls : kis_net_httpd_connection)
       (t0 t3 t4 : String) (rest : List String) (v : String × String)
       (structdata : structured_data) (cmd : PostCommand),
      E.str_tokenize concls.url = t0 :: "devices" :: "last-time" :: t3 :: t4 :: rest →
      concls.variable_cache.find? (fun v => v.1 = "json") = some v →
      E.structured_json v.2 = .ok structdata →
      parse_command now structdata = .ok cmd → cmd.regexdata = none →
      E.sscanf_ld t3 = some ts → E.httpd_can_serialize t4 = true →
      httpd_post_complete E now dt concls
        = some (reply concls dt
            [StreamItem.serialized (E.get_suffix t4)
              (tracker_element.summary_vector
                ((dt.devices.filter
                  (fun d => decide (d.last_time > (if 0 ≤ ts then ts else now + ts)))).map
                  (fun d => SummarizeSingletracker_element d cmd.summary_vec)))
              true])) := by
  have hadj : adjust_lastts now ts = (if 0 ≤ ts then ts else now + ts) := by
    unfold adjust_lastts
    by_cases h : ts < 0
    · rw [if_pos h, if_neg (by omega), wrap_long_of_range _ (by omega) (by omega)]
    · rw [if_neg h, if_pos (by omega)]
  refine ⟨?_, ?_, ?_⟩
  · intro d
    rw [hadj, last_time_worker_eq]
    simp
  · intro E dt connection path t0 t3 t4 rest hpath htok hscan hser
    have h2 : ¬ rest.length + 1 + 1 + 1 + 1 + 1 < 2 := by omega
    have h5 : ¬ rest.length + 1 + 1 + 1 + 1 + 1 < 5 := by omega
    simp [h2, h5, httpd_create_stream_response, hpath, htok, get_last_time, hscan, hser,
      do_readonly_device_work_pred, last_time_worker_eq, hadj]
  · intro E dt concls t0 t3 t4 rest v structdata cmd htok hjson hparse hcmd hrx hscan hser
    have h4 : ¬ rest.length + 1 + 1 + 1 + 1 + 1 < 4 := by omega
    have h5 : ¬ rest.length + 1 + 1 + 1 + 1 + 1 < 5 := by omega
    simp [h4, h5, httpd_post_complete, htok, hjson, hparse, hcmd, post_last_time, hscan, hser, hrx,
      do_readonly_device_work_pred, last_time_worker_eq, hadj, post_last_time_outdevs_eq]

/-- Witness for C4: at time 1000 a `last-time` request with timestamp `-60` matches
the device last seen at 941 and not the ones last seen at 940 and at 100. -/
theorem C4_last_time_predicate_witness :
    last_time_worker (adjust_lastts 1000 (-60)) exampleDev2 = false ∧
    httpd_create_stream_response exampleEnv 1000 exampleTracker (exampleConnection "" [])
        "/devices/last-time/-60/devices.json" "GET"
      = some (reply (exampleConnection "" []) exampleTracker
          [StreamItem.serialized "json" (tracker_element.device_vector [exampleDev3])
            false]) := by
  have h := C4_last_time_predicate 1000 (-60) (by decide) (by decide)
  refine ⟨?_, ?_⟩
  · have h1 := (h.1 exampleDev2).not
    simp only [Bool.not_eq_true] at h1
    exact h1.mpr (by decide)
  · rw [h.2.1 exampleEnv exampleTracker (exampleConnection "" [])
      "/devices/last-time/-60/devices.json" "" "-60" "devices.json" []
      (by decide) (by decide) (by decide) (by decide)]
    decide

/-- C5: when the `devices` list of the body is a list of strings that all parse as MAC
addresses `m1..mn`, the device list `multimac_endp_handler` hands to
`summarize_with_structured` is the concatenation, in the order listed, of the devices
stored under `m1`, then `m2`, ..., then `mn` in the MAC multimap, and the handler answers
with what summarisation makes of that list. -/
theorem C5_multimac_devices_in_listed_order (E : Env) (dt : device_tracker) (uri : String)
    (structured : structured_data) (strs : List String)
    (hdev : structured.lookup "devices"
      = some (structured_data.arr (strs.map structured_data.str)))
    (hok : ∀ s ∈ strs, (E.mac_addr s).error = false) :
    multimac_ret_devices dt.tracked_mac_multimap (strs.map E.mac_addr)
      = (strs.map E.mac_addr).flatMap
          (fun m => (multimap_equal_range dt.tracked_mac_multimap m).map Prod.snd) ∧
    multimac_try E dt structured
      = E.summarize_with_structured
          ((strs.map E.mac_addr).flatMap
            (fun m => (multimap_equal_range dt.tracked_mac_multimap m).map Prod.snd))
          structured ∧
    multimac_endp_handler E dt uri structured
      = (match E.summarize_with_structured
            ((strs.map E.mac_addr).flatMap
              (fun m => (multimap_equal_range dt.tracked_mac_multimap m).map Prod.snd))
            structured with
         | .ok output =>
           { stream := [StreamItem.serialized (E.get_suffix uri) output true],
             status := 200 }
         | .error what =>
           { stream := [StreamItem.text "Invalid request: ", StreamItem.text what,
                        StreamItem.text "\n"],
             status := 500 }) := by
  have hret : multimac_ret_devices dt.tracked_mac_multimap (strs.map E.mac_addr)
      = (strs.map E.mac_addr).flatMap
          (fun m => (multimap_equal_range dt.tracked_mac_multimap m).map Prod.snd) := by
    unfold multimac_ret_devices
    rw [multimac_ret_devices_aux]
    simp
  have htry : multimac_try E dt structured
      = E.summarize_with_structured
          ((strs.map E.mac_addr).flatMap
            (fun m => (multimap_equal_range dt.tracked_mac_multimap m).map Prod.snd))
          structured := by
    have hp := multimac_parse_ok E strs [] hok
    simp only [List.nil_append] at hp
    simp [multimac_try, structured_data.has_key, structured_data.get_structured_by_key,
      hdev, structured_data.as_vector, hp, hret]
  refine ⟨hret, htry, ?_⟩
  unfold multimac_endp_handler
  rw [htry]

/-- Witness for C5: MAC 1 (two devices), MAC 9 (none), MAC 2 (one), MAC 1 again. -/
theorem C5_multimac_devices_in_listed_order_witness :
    multimac_endp_handler exampleEnv exampleTracker "devices.json"
        (structured_data.dict [("devices", structured_data.arr
          (["AA:BB:CC:DD:EE:FF", "00:00:00:00:00:09", "00:11:22:33:44:55",
            "AA:BB:CC:DD:EE:FF"].map structured_data.str))])
      = { stream := [StreamItem.serialized "json"
            (tracker_element.device_vector
              [exampleDev1, exampleDev3, exampleDev2, exampleDev1, exampleDev3]) true],
          status := 200 } :=
  (C5_multimac_devices_in_listed_order exampleEnv exampleTracker "devices.json"
    (structured_data.dict [("devices", structured_data.arr
      (["AA:BB:CC:DD:EE:FF", "00:00:00:00:00:09", "00:11:22:33:44:55",
        "AA:BB:CC:DD:EE:FF"].map structured_data.str))])
    ["AA:BB:CC:DD:EE:FF", "00:00:00:00:00:09", "00:11:22:33:44:55", "AA:BB:CC:DD:EE:FF"]
    rfl (by decide)).2.2.trans (by decide)

/-- C6: for a MAC address `m` that parses without error and any table, the device vector
the `GET` by-mac branch serializes has exactly as many elements as there are entries
under `m` in `tracked_mac_multimap`; the `POST` by-mac branch answers with an error when
there is no entry under `m` and otherwise, for the target `devices`, serializes a vector
with exactly that many elements; both leave the multimap as it was and call no device
mutator. -/
theorem C6_by_mac_vector_length (E : Env) (now : Int) (dt : device_tracker)
    (t0 t3 t4 : String) (rest : List String)
    (hser : E.httpd_can_serialize t4 = true) (hmac : (E.mac_addr t3).error = false) :
    (∀ (connection : kis_net_httpd_connection) (path : String),
      path ≠ "/devices/all_devices.ekjson" →
      E.str_tokenize path = t0 :: "devices" :: "by-mac" :: t3 :: t4 :: rest →
      ∃ r devvec,
        httpd_create_stream_response E now dt connection path "GET" = some r ∧
        r.stream = [StreamItem.serialized (E.get_suffix t4)
                      (tracker_element.device_vector devvec) false] ∧
        devvec.length = multimap_count dt.tracked_mac_multimap (E.mac_addr t3) ∧
        r.tracker.tracked_mac_multimap = dt.tracked_mac_multimap ∧ r.calls = []) ∧
    (∀ (concls : kis_net_httpd_connection) (v : String × String)
       (structdata : structured_data) (cmd : PostCommand),
      E.str_tokenize concls.url = t0 :: "devices" :: "by-mac" :: t3 :: t4 :: rest →
      concls.variable_cache.find? (fun v => v.1 = "json") = some v →
      E.structured_json v.2 = .ok structdata →
      parse_command now structdata = .ok cmd →
      E.httpd_strip_suffix t4 = "devices" →
      ∃ r,
        httpd_post_complete E now dt concls = some r ∧
        r.tracker.tracked_mac_multimap = dt.tracked_mac_multimap ∧ r.calls = [] ∧
        ((multimap_count dt.tracked_mac_multimap (E.mac_addr t3) = 0 ∧
          r.stream = [StreamItem.text "Invalid request: Could not find device by MAC\n"]) ∨
         (∃ devvec,
          r.stream = [StreamItem.serialized (E.get_suffix t4)
                        (tracker_element.summary_vector devvec) true] ∧
          devvec.length = multimap_count dt.tracked_mac_multimap (E.mac_addr t3)))) := by
  have h2 : ¬ rest.length + 1 + 1 + 1 + 1 + 1 < 2 := by omega
  have h4 : ¬ rest.length + 1 + 1 + 1 + 1 + 1 < 4 := by omega
  have h5 : ¬ rest.length + 1 + 1 + 1 + 1 + 1 < 5 := by omega
  refine ⟨?_, ?_⟩
  · intro connection path hpath htok
    refine ⟨reply connection dt
        [StreamItem.serialized (E.get_suffix t4)
          (tracker_element.device_vector
            (get_by_mac_devvec dt.tracked_mac_multimap (E.mac_addr t3))) false],
      get_by_mac_devvec dt.tracked_mac_multimap (E.mac_addr t3), ?_, rfl, ?_, rfl, rfl⟩
    · simp [h2, h5, httpd_create_stream_response, hpath, htok, get_by_mac, hser, hmac]
    · rw [get_by_mac_devvec_eq, List.length_map, multimap_equal_range_length]
  · intro concls v structdata cmd htok hjson hparse hcmd htarget
    by_cases hcount : multimap_count dt.tracked_mac_multimap (E.mac_addr t3) = 0
    · refine ⟨reply_code concls dt
          [StreamItem.text "Invalid request: Could not find device by MAC\n"] 400,
        ?_, rfl, rfl, Or.inl ⟨hcount, rfl⟩⟩
      simp [h4, h5, httpd_post_complete, htok, hjson, hparse, hcmd, post_by_mac, hser, hmac,
        hcount]
    · refine ⟨reply concls dt
          [StreamItem.serialized (E.get_suffix t4)
            (tracker_element.summary_vector
              (post_by_mac_devvec dt.tracked_mac_multimap (E.mac_addr t3) cmd.summary_vec))
            true],
        ?_, rfl, rfl, Or.inr
        ⟨post_by_mac_devvec dt.tracked_mac_multimap (E.mac_addr t3) cmd.summary_vec,
          rfl, ?_⟩⟩
      · simp [h4, h5, httpd_post_complete, htok, hjson, hparse, hcmd, post_by_mac, hser, hmac,
          hcount, htarget]
      · rw [post_by_mac_devvec_eq, List.length_map, multimap_equal_range_length]

/-- Witness for C6: MAC `AA:BB:CC:DD:EE:FF` indexes two devices of the example table. -/
theorem C6_by_mac_vector_length_witness :
    multimap_count exampleTracker.tracked_mac_multimap (exampleEnv.mac_addr "AA:BB:CC:DD:EE:FF")
      = 2 ∧
    ∃ r devvec,
      httpd_create_stream_response exampleEnv 1000 exampleTracker (exampleConnection "" [])
          "/devices/by-mac/AA:BB:CC:DD:EE:FF/devices.json" "GET" = some r ∧
      r.stream = [StreamItem.serialized (exampleEnv.get_suffix "devices.json")
                    (tracker_element.device_vector devvec) false] ∧
      devvec.length
        = multimap_count exampleTracker.tracked_mac_multimap
            (exampleEnv.mac_addr "AA:BB:CC:DD:EE:FF") ∧
      r.tracker.tracked_mac_multimap = exampleTracker.tracked_mac_multimap ∧ r.calls = [] :=
  ⟨by decide,
   (C6_by_mac_vector_length exampleEnv 1000 exampleTracker "" "AA:BB:CC:DD:EE:FF"
      "devices.json" [] (by decide) (by decide)).1 (exampleConnection "" [])
      "/devices/by-mac/AA:BB:CC:DD:EE:FF/devices.json" (by decide) (by decide)⟩

/-- C7: a by-key request whose suffix can be serialized and whose key has no device in the
table is refused by `httpd_verify_path` for `GET` and for `POST`; the `GET` handler
answers `Invalid device key` with status 500, the `POST` handler answers, whatever the
body, with a non-empty text and status 400, and with `No device with that key` when the
body is well formed; neither writes a serialized element or calls a device mutator. -/
theorem C7_by_key_without_device_rejected (E : Env) (now : Int) (dt : device_tracker)
    (connection concls : kis_net_httpd_connection) (path t0 t3 t4 : String)
    (rest : List String)
    (hpath : path ≠ "/devices/all_devices.ekjson")
    (htok : E.str_tokenize path = t0 :: "devices" :: "by-key" :: t3 :: t4 :: rest)
    (hurl : concls.url = path)
    (hser : E.httpd_can_serialize t4 = true)
    (hnone : fetch_device dt (E.device_key t3) = none) :
    httpd_verify_path E dt path "GET" = some false ∧
    httpd_verify_path E dt path "POST" = some false ∧
    httpd_create_stream_response E now dt connection path "GET"
      = some (reply_code connection dt [StreamItem.text "Invalid device key\n"] 500) ∧
    (∃ r msg more,
      httpd_post_complete E now dt concls = some r ∧ r.httpcode = 400 ∧
      r.stream = StreamItem.text msg :: more ∧ msg ≠ "" ∧
      (∀ i ∈ r.stream, ∃ s, i = StreamItem.text s) ∧ r.calls = [] ∧ r.tracker = dt) ∧
    (∀ (v : String × String) (structdata : structured_data) (cmd : PostCommand),
      concls.variable_cache.find? (fun v => v.1 = "json") = some v →
      E.structured_json v.2 = .ok structdata →
      parse_command now structdata = .ok cmd →
      httpd_post_complete E now dt concls
        = some (reply_code concls dt
            [StreamItem.text "Invalid request: No device with that key"] 400)) := by
  have h2 : ¬ rest.length + 1 + 1 + 1 + 1 + 1 < 2 := by omega
  have h3 : ¬ rest.length + 1 + 1 + 1 + 1 + 1 < 3 := by omega
  have h4 : ¬ rest.length + 1 + 1 + 1 + 1 + 1 < 4 := by omega
  have h5 : ¬ rest.length + 1 + 1 + 1 + 1 + 1 < 5 := by omega
  have hpost : ∀ (structdata : structured_data) (cmd : PostCommand),
      (((E.str_tokenize concls.url)[1]?).bind fun t1 =>
        if t1 = "devices" then
          ((E.str_tokenize concls.url)[2]?).bind fun t2 =>
          if t2 = "by-mac" then post_by_mac E dt concls (E.str_tokenize concls.url) cmd
          else if t2 = "by-key" then
            post_by_key E dt concls (E.str_tokenize concls.url) structdata cmd
          else if t2 = "last-time" then
            post_last_time E now dt concls (E.str_tokenize concls.url) cmd
          else some (post_end concls dt)
        else some (post_end concls dt))
      = some (reply_code concls dt
          [StreamItem.text "Invalid request: No device with that key"] 400) := by
    intro structdata cmd
    simp [h5, hurl, htok, post_by_key, hser, hnone]
  refine ⟨?_, ?_, ?_, ?_, ?_⟩
  · simp [httpd_verify_path, hpath, htok, h2, h3, h5, verify_get_by_key, hser, hnone]
  · simp [httpd_verify_path, htok, h2, h4, h5, verify_post_by_key, hser, hnone]
  · simp [httpd_create_stream_response, hpath, htok, h2, h5, get_by_key, hser, hnone]
  · unfold httpd_post_complete
    simp only [hurl, htok, List.length_cons, h4, if_false]
    rw [hurl] at hpost
    simp only [htok] at hpost
    split
    · exact ⟨_, _, _, rfl, rfl, rfl, by decide, by simp [reply_code], rfl, rfl⟩
    · rename_i structdata hj
      split
      · rename_i msg hc
        have hmsg := parse_command_returned now structdata msg hc
        subst hmsg
        exact ⟨_, _, _, rfl, rfl, rfl, by decide, by simp [reply_code], rfl, rfl⟩
      · exact ⟨_, _, _, rfl, rfl, rfl, by decide, by simp [reply_code], rfl, rfl⟩
      · rename_i cmd hc
        rw [hpost structdata cmd]
        exact ⟨_, _, _, rfl, rfl, rfl, by decide, by simp [reply_code], rfl, rfl⟩
  · intro v structdata cmd hjson hparse hcmd
    have := hpost structdata cmd
    simp only [hurl, htok] at this
    simp only [httpd_post_complete, hurl, htok, List.length_cons, h4, if_false, hjson, hparse,
      hcmd]
    exact this

/-- Witness for C7: key `4` parses and has no device in the example table. -/
theorem C7_by_key_without_device_rejected_witness :
    httpd_verify_path exampleEnv exampleTracker "/devices/by-key/4/device.json" "GET"
      = some false ∧
    httpd_create_stream_response exampleEnv 1000 exampleTracker (exampleConnection "" [])
        "/devices/by-key/4/device.json" "GET"
      = some { stream := [StreamItem.text "Invalid device key\n"], httpcode := 500,
               mime_url := "", calls := [], tracker := exampleTracker } :=
  have h := C7_by_key_without_device_rejected exampleEnv 1000 exampleTracker
    (exampleConnection "" [])
    (exampleConnection "/devices/by-key/4/device.json" [("json", "\x7b\x7d")])
    "/devices/by-key/4/device.json" "" "4" "device.json" []
    (by decide) (by decide) (by decide) (by decide) (by decide)
  ⟨h.1, h.2.2.1⟩

/-- C8: the `GET` handler evaluated at requests that fail a validation check.  With an
invalid MAC address, with fewer than five path tokens, with a suffix that has no
serializer (by-mac) and with an unparseable timestamp it returns with nothing written and
the status still 200; on the by-key path a suffix without serializer sets status 500 and
writes nothing.  For comparison, an unknown device key on the by-key path does get a
message and status 500, and the `POST` handler reports an invalid MAC address with a
message and status 400. -/
theorem C8_validation_failure_not_reported :
    httpd_create_stream_response exampleEnv 1000 exampleTracker (exampleConnection "" [])
        "/devices/by-mac/zz/devices.json" "GET"
      = some { stream := [], httpcode := 200, mime_url := "", calls := [],
               tracker := exampleTracker } ∧
    httpd_create_stream_response exampleEnv 1000 exampleTracker (exampleConnection "" [])
        "/devices/by-mac/AA:BB:CC:DD:EE:FF" "GET"
      = some { stream := [], httpcode := 200, mime_url := "", calls := [],
               tracker := exampleTracker } ∧
    httpd_create_stream_response exampleEnv 1000 exampleTracker (exampleConnection "" [])
        "/devices/by-mac/AA:BB:CC:DD:EE:FF/devices.xml" "GET"
      = some { stream := [], httpcode := 200, mime_url := "", calls := [],
               tracker := exampleTracker } ∧
    httpd_create_stream_response exampleEnv 1000 exampleTracker (exampleConnection "" [])
        "/devices/last-time/abc/devices.json" "GET"
      = some { stream := [], httpcode := 200, mime_url := "", calls := [],
               tracker := exampleTracker } ∧
    httpd_create_stream_response exampleEnv 1000 exampleTracker (exampleConnection "" [])
        "/devices/by-key/1/device.xml" "GET"
      = some { stream := [], httpcode := 500, mime_url := "", calls := [],
               tracker := exampleTracker } ∧
    httpd_create_stream_response exampleEnv 1000 exampleTracker (exampleConnection "" [])
        "/devices/by-key/4/device.json" "GET"
      = some { stream := [StreamItem.text "Invalid device key\n"], httpcode := 500,
               mime_url := "", calls := [], tracker := exampleTracker } ∧
    httpd_post_complete exampleEnv 1000 exampleTracker
        (exampleConnection "/devices/by-mac/zz/devices.json" [("json", "\x7b\x7d")])
      = some { stream := [StreamItem.text "Invalid request: Invalid MAC address\n"],
               httpcode := 400, mime_url := "", calls := [], tracker := exampleTracker } := by
  decide

/-- C9, counterexample: the `GET` handler reports an unknown device key with status 500,
and `multimac_endp_handler` reports a body without `devices` with status 500; neither is
a 4xx status. -/
theorem C9_counterexample_status_500 :
    (∃ r,
      httpd_create_stream_response exampleEnv 1000 exampleTracker (exampleConnection "" [])
          "/devices/by-key/4/device.json" "GET" = some r ∧
      r.stream = [StreamItem.text "Invalid device key\n"] ∧
      ¬ (400 ≤ r.httpcode ∧ r.httpcode < 500)) ∧
    (multimac_endp_handler exampleEnv exampleTracker "devices.json"
        (structured_data.dict [])).stream
      = [StreamItem.text "Invalid request: ",
         StreamItem.text "Missing 'devices' key in command dictionary",
         StreamItem.text "\n"] ∧
    ¬ (400 ≤ (multimac_endp_handler exampleEnv exampleTracker "devices.json"
                (structured_data.dict [])).status ∧
       (multimac_endp_handler exampleEnv exampleTracker "devices.json"
          (structured_data.dict [])).status < 500) := by
  refine ⟨⟨reply_code (exampleConnection "" []) exampleTracker
      [StreamItem.text "Invalid device key\n"] 500, by decide, rfl, by decide⟩, ?_, ?_⟩
  · decide
  · decide

/-- C9, amended: each handler always answers, and every error it reports has one fixed
status.  `httpd_post_complete` either leaves the status as it was (answering `OK` or one
serialized element) or reports an error with status 400; `httpd_create_stream_response`
either leaves the status as it was or reports an error with status 500;
`multimac_endp_handler` returns 200 with one serialized element or 500 with an
`Invalid request: ` message. -/
theorem C9_error_status_per_handler (E : Env) (now : Int) (dt : device_tracker)
    (connection concls : kis_net_httpd_connection) (path method uri : String)
    (structured : structured_data) :
    (∃ r, httpd_post_complete E now dt concls = some r ∧
      (post_success concls r ∨ reports_error r 400)) ∧
    (∃ r, httpd_create_stream_response E now dt connection path method = some r ∧
      (r.httpcode = connection.httpcode ∨ reports_error r 500)) ∧
    (((multimac_endp_handler E dt uri structured).status = 200 ∧
      ∃ output, (multimac_endp_handler E dt uri structured).stream
        = [StreamItem.serialized (E.get_suffix uri) output true]) ∨
     ((multimac_endp_handler E dt uri structured).status = 500 ∧
      ∃ what, (multimac_endp_handler E dt uri structured).stream
        = [StreamItem.text "Invalid request: ", StreamItem.text what,
           StreamItem.text "\n"])) :=
  ⟨httpd_post_complete_outcome E now dt concls,
   httpd_create_stream_response_outcome E now dt connection path method,
   multimac_endp_handler_outcome E dt uri structured⟩

/-- C10: the `POST` handler evaluated at a by-key request for an existing device whose
target is none of `device`, `set_name`, `set_tag`, and at a request of an unknown family,
both with a well-formed body: it writes `OK`, leaves the status at 200 and calls no
device mutator.  `httpd_verify_path` refuses both paths, and the by-mac branch answers an
unknown target with `Invalid request` and status 400. -/
theorem C10_unhandled_post_answered_ok :
    httpd_post_complete exampleEnv 1000 exampleTracker
        (exampleConnection "/devices/by-key/1/frobnicate.json" [("json", "\x7b\x7d")])
      = some { stream := [StreamItem.text "OK"], httpcode := 200, mime_url := "",
               calls := [], tracker := exampleTracker } ∧
    httpd_post_complete exampleEnv 1000 exampleTracker
        (exampleConnection "/devices/by-name/1/device.json" [("json", "\x7b\x7d")])
      = some { stream := [StreamItem.text "OK"], httpcode := 200, mime_url := "",
               calls := [], tracker := exampleTracker } ∧
    httpd_verify_path exampleEnv exampleTracker "/devices/by-key/1/frobnicate.json" "POST"
      = some false ∧
    httpd_verify_path exampleEnv exampleTracker "/devices/by-name/1/device.json" "POST"
      = some false ∧
    httpd_post_complete exampleEnv 1000 exampleTracker
        (exampleConnection "/devices/by-mac/AA:BB:CC:DD:EE:FF/frobnicate.json"
          [("json", "\x7b\x7d")])
      = some { stream := [StreamItem.text "Invalid request"], httpcode := 400,
               mime_url := "", calls := [], tracker := exampleTracker } := by
  decide

/-- C11: a `POST` by-key request whose target is `set_name` or `set_tag`.  Without a valid
session the handler, whatever the body, calls neither `set_device_user_name` nor
`set_device_tag`, leaves the tracker as it was, writes only text other than `OK` and sets
status 400; when the body is well formed, the suffix can be serialized and the device
exists, the text written is exactly `Invalid request: login required`.  With a valid
session and the required keys readable as strings, it calls the mutator exactly once, with
the values of the body, writes exactly `OK` and leaves the status as it was. -/
theorem C11_mutation_requires_session (E : Env) (now : Int) (dt : device_tracker)
    (concls : kis_net_httpd_connection) (t0 t3 t4 : String) (rest : List String)
    (htok : E.str_tokenize concls.url = t0 :: "devices" :: "by-key" :: t3 :: t4 :: rest) :
    (E.httpd_strip_suffix t4 = "set_name" ∨ E.httpd_strip_suffix t4 = "set_tag" →
      E.has_valid_session concls = false →
      ∃ items,
        httpd_post_complete E now dt concls = some (reply_code concls dt items 400) ∧
        (reply_code concls dt items 400).calls = [] ∧
        (reply_code concls dt items 400).tracker = dt ∧
        only_text items = true ∧ items ≠ [StreamItem.text "OK"]) ∧
    (∀ (v : String × String) (structdata : structured_data) (cmd : PostCommand)
       (dev : kis_tracked_device_base),
      concls.variable_cache.find? (fun v => v.1 = "json") = some v →
      E.structured_json v.2 = .ok structdata →
      parse_command now structdata = .ok cmd →
      E.httpd_can_serialize t4 = true →
      fetch_device dt (E.device_key t3) = some dev →
      (E.httpd_strip_suffix t4 = "set_name" ∨ E.httpd_strip_suffix t4 = "set_tag" →
        E.has_valid_session concls = false →
        httpd_post_complete E now dt concls
          = some (reply_code concls dt
              [StreamItem.text "Invalid request: ", StreamItem.text "login required"] 400) ∧
        written_text [StreamItem.text "Invalid request: ", StreamItem.text "login required"]
          = "Invalid request: login required") ∧
      (E.httpd_strip_suffix t4 = "set_name" → E.has_valid_session concls = true →
        ∀ name, structdata.key_as_string "username" = .ok name →
        httpd_post_complete E now dt concls
          = some { stream := [StreamItem.text "OK"], httpcode := concls.httpcode,
                   mime_url := concls.mime_url,
                   calls := [DeviceCall.set_device_user_name dev name],
                   tracker := E.set_device_user_name dt dev name }) ∧
      (E.httpd_strip_suffix t4 = "set_tag" → E.has_valid_session concls = true →
        ∀ tag content, structdata.key_as_string "tagname" = .ok tag →
        structdata.key_as_string "tagvalue" = .ok content →
        httpd_post_complete E now dt concls
          = some { stream := [StreamItem.text "OK"], httpcode := concls.httpcode,
                   mime_url := concls.mime_url,
                   calls := [DeviceCall.set_device_tag dev tag content],
                   tracker := E.set_device_tag dt dev tag content })) := by
  have h4 : ¬ rest.length + 1 + 1 + 1 + 1 + 1 < 4 := by omega
  have h5 : ¬ rest.length + 1 + 1 + 1 + 1 + 1 < 5 := by omega
  refine ⟨?_, ?_⟩
  · intro htarget hsession
    unfold httpd_post_complete
    simp only [htok, List.length_cons, h4, if_false, List.getElem?_cons_succ,
      List.getElem?_cons_zero, Option.some_bind]
    split
    · exact ⟨_, rfl, rfl, rfl, rfl, by simp⟩
    · rename_i structdata hj
      split
      · rename_i msg hc
        have hmsg := parse_command_returned now structdata msg hc
        subst hmsg
        exact ⟨_, rfl, rfl, rfl, rfl, by decide⟩
      · exact ⟨_, rfl, rfl, rfl, rfl, by simp⟩
      · rename_i cmd hc
        obtain ⟨items, hi, ho, hne⟩ := post_by_key_without_session E dt concls t0 "devices"
          "by-key" t3 t4 rest structdata cmd htarget hsession
        refine ⟨items, ?_, rfl, rfl, ho, hne⟩
        simpa using hi
  · intro v structdata cmd dev hjson hparse hcmd hser hdev
    refine ⟨?_, ?_, ?_⟩
    · intro htarget hsession
      refine ⟨?_, by decide⟩
      rcases htarget with ht | ht <;>
        simp [httpd_post_complete, htok, h4, h5, hjson, hparse, hcmd, post_by_key, hser, hdev,
          ht, hsession, post_catch]
    · intro ht hsession name hname
      have hk := key_as_string_has_key structdata "username" name hname
      simp [httpd_post_complete, htok, h4, h5, hjson, hparse, hcmd, post_by_key, hser, hdev,
        ht, hsession, hk, hname]
    · intro ht hsession tag content htag hcontent
      have hk1 := key_as_string_has_key structdata "tagname" tag htag
      have hk2 := key_as_string_has_key structdata "tagvalue" content hcontent
      simp [httpd_post_complete, htok, h4, h5, hjson, hparse, hcmd, post_by_key, hser, hdev,
        ht, hsession, hk1, hk2, htag, hcontent]

/-- Witness for C11: without a session a `set_name` request for the device under key 1 is
answered `Invalid request: login required` with status 400; with a session and a
`username` in the body the name is set once and the answer is `OK`. -/
theorem C11_mutation_requires_session_witness :
    httpd_post_complete exampleEnv 1000 exampleTracker
        (exampleConnection "/devices/by-key/1/set_name.json" [("json", "\x7b\x7d")])
      = some { stream := [StreamItem.text "Invalid request: ",
                          StreamItem.text "login required"],
               httpcode := 400, mime_url := "", calls := [], tracker := exampleTracker } ∧
    httpd_post_complete exampleEnvSession 1000 exampleTracker
        (exampleConnection "/devices/by-key/1/set_name.json"
          [("json", "\x7b\x22username\x22: \x22lab\x22\x7d")])
      = some { stream := [StreamItem.text "OK"], httpcode := 200, mime_url := "",
               calls := [DeviceCall.set_device_user_name exampleDev1 "lab"],
               tracker := exampleTracker } :=
  ⟨((C11_mutation_requires_session exampleEnv 1000 exampleTracker
      (exampleConnection "/devices/by-key/1/set_name.json" [("json", "\x7b\x7d")])
      "" "1" "set_name.json" [] (by decide)).2
      ("json", "\x7b\x7d") (structured_data.dict [])
      { summary_vec := [], wrapper_name := "", regexdata := none, post_ts := 0 }
      exampleDev1 (by decide) rfl rfl (by decide) (by decide)).1
      (Or.inl (by decide)) (by decide) |>.1,
   ((C11_mutation_requires_session exampleEnvSession 1000 exampleTracker
      (exampleConnection "/devices/by-key/1/set_name.json"
        [("json", "\x7b\x22username\x22: \x22lab\x22\x7d")])
      "" "1" "set_name.json" [] (by decide)).2
      ("json", "\x7b\x22username\x22: \x22lab\x22\x7d")
      (structured_data.dict [("username", structured_data.str "lab")])
      { summary_vec := [], wrapper_name := "", regexdata := none, post_ts := 0 }
      exampleDev1 (by decide) rfl rfl (by decide) (by decide)).2.1
      (by decide) (by decide) "lab" rfl⟩

/-- C12: when the body has no `devices` key, or its `devices` list has an entry (at any
position) that is not a string parsing as a MAC address, `multimac_endp_handler` returns
status 500 and writes `Invalid request: `, the reason and a newline; that answer is the
same for every table and every summarizer, so neither the MAC index nor the summarizer
and serializer take part in it. -/
theorem C12_multimac_rejects_bad_list (E : Env) (dt : device_tracker) (uri : String)
    (structured : structured_data)
    (hbad : structured.has_key "devices" = false ∨
      ∃ maclist, structured.lookup "devices" = some (structured_data.arr maclist) ∧
        ∃ m ∈ maclist, parses_as_mac E m = false) :
    ∃ what,
      multimac_endp_handler E dt uri structured
        = { stream := [StreamItem.text "Invalid request: ", StreamItem.text what,
                       StreamItem.text "\n"],
            status := 500 } ∧
      only_text (multimac_endp_handler E dt uri structured).stream = true ∧
      ∀ (dt2 : device_tracker)
        (f : List kis_tracked_device_base → structured_data → Except String tracker_element),
        multimac_endp_handler { E with summarize_with_structured := f } dt2 uri structured
          = multimac_endp_handler E dt uri structured := by
  have key : ∃ what, ∀ (dt2 : device_tracker)
      (f : List kis_tracked_device_base → structured_data → Except String tracker_element),
      multimac_try { E with summarize_with_structured := f } dt2 structured
        = .error what := by
    rcases hbad with hno | ⟨maclist, hl, hm⟩
    · exact ⟨"Missing 'devices' key in command dictionary", fun dt2 f => by
        simp [multimac_try, hno]⟩
    · obtain ⟨what, hw⟩ := multimac_parse_bad_entry E maclist [] hm
      refine ⟨what, fun dt2 f => ?_⟩
      have hc := multimac_parse_congr E { E with summarize_with_structured := f } rfl rfl
        maclist []
      simp [multimac_try, structured_data.has_key, structured_data.get_structured_by_key, hl,
        structured_data.as_vector, hc, hw]
  obtain ⟨what, hall⟩ := key
  have h0 : multimac_try E dt structured = .error what := hall dt E.summarize_with_structured
  refine ⟨what, ?_, ?_, ?_⟩
  · simp [multimac_endp_handler, h0]
  · simp [multimac_endp_handler, h0, only_text]
  · intro dt2 f
    simp [multimac_endp_handler, h0, hall dt2 f]

/-- Witness for C12: a valid MAC followed by `zz`, which does not parse. -/
theorem C12_multimac_rejects_bad_list_witness :
    ∃ what,
      multimac_endp_handler exampleEnv exampleTracker "devices.json"
          (structured_data.dict [("devices", structured_data.arr
            [structured_data.str "AA:BB:CC:DD:EE:FF", structured_data.str "zz"])])
        = { stream := [StreamItem.text "Invalid request: ", StreamItem.text what,
                       StreamItem.text "\n"],
            status := 500 } ∧
      only_text (multimac_endp_handler exampleEnv exampleTracker "devices.json"
          (structured_data.dict [("devices", structured_data.arr
            [structured_data.str "AA:BB:CC:DD:EE:FF", structured_data.str "zz"])])).stream
        = true ∧
      ∀ (dt2 : device_tracker)
        (f : List kis_tracked_device_base → structured_data → Except String tracker_element),
        multimac_endp_handler { exampleEnv with summarize_with_structured := f } dt2
            "devices.json"
            (structured_data.dict [("devices", structured_data.arr
              [structured_data.str "AA:BB:CC:DD:EE:FF", structured_data.str "zz"])])
          = multimac_endp_handler exampleEnv exampleTracker "devices.json"
              (structured_data.dict [("devices", structured_data.arr
                [structured_data.str "AA:BB:CC:DD:EE:FF", structured_data.str "zz"])]) :=
  C12_multimac_rejects_bad_list exampleEnv exampleTracker "devices.json"
    (structured_data.dict [("devices", structured_data.arr
      [structured_data.str "AA:BB:CC:DD:EE:FF", structured_data.str "zz"])])
    (Or.inr ⟨_, rfl, structured_data.str "zz", by simp, by decide⟩)

/-- C13: let the `fields` list of the body consist of strings and arrays of strings.  When
every array has two elements, the `fields` loop of `httpd_post_complete` yields a selector
of the same length and order, a string `p` giving `(p, no alias)` and `[p, a]` giving
`(p, alias a)`; that selector is the one of every command the second `try` block yields,
and the one a by-key `device` request is summarized with.  When some array has a length
other than 2, the handler answers `Invalid request: Expected field, rename` with status
400, calls no device mutator, leaves the tracker as it was and serializes nothing. -/
theorem C13_fields_selector (now : Int) (structdata : structured_data)
    (entries : List FieldEntry)
    (hfields : structdata.lookup "fields"
      = some (structured_data.arr (entries.map FieldEntry.encode))) :
    ((∀ e ∈ entries, e.well_formed = true) →
      parse_fields (entries.map FieldEntry.encode) [] = .ok (entries.map FieldEntry.selector) ∧
      (entries.map FieldEntry.selector).length = entries.length ∧
      (∀ cmd, parse_command now structdata = .ok cmd →
        cmd.summary_vec = entries.map FieldEntry.selector) ∧
      (∀ w, structdata.key_as_string_def "wrapper" "" = .ok w →
        structdata.lookup "last_time" = none →
        ∃ cmd, parse_command now structdata = .ok cmd ∧
          cmd.summary_vec = entries.map FieldEntry.selector) ∧
      (∀ (E : Env) (dt : device_tracker) (concls : kis_net_httpd_connection)
         (t0 t3 t4 : String) (rest : List String) (v : String × String) (cmd : PostCommand)
         (dev : kis_tracked_device_base),
        E.str_tokenize concls.url = t0 :: "devices" :: "by-key" :: t3 :: t4 :: rest →
        concls.variable_cache.find? (fun v => v.1 = "json") = some v →
        E.structured_json v.2 = .ok structdata →
        parse_command now structdata = .ok cmd →
        E.httpd_can_serialize t4 = true →
        fetch_device dt (E.device_key t3) = some dev →
        E.httpd_strip_suffix t4 = "device" →
        httpd_post_complete E now dt concls
          = some (reply concls dt
              [StreamItem.serialized (E.get_suffix t4)
                (tracker_element.summary
                  { dev := dev, summary_vec := entries.map FieldEntry.selector }) true]))) ∧
    ((∃ e ∈ entries, e.well_formed = false) →
      parse_command now structdata
        = .error (Abort.returned "Invalid request: Expected field, rename") ∧
      (∀ (E : Env) (dt : device_tracker) (concls : kis_net_httpd_connection)
         (v : String × String),
        ¬ (E.str_tokenize concls.url).length < 4 →
        concls.variable_cache.find? (fun v => v.1 = "json") = some v →
        E.structured_json v.2 = .ok structdata →
        httpd_post_complete E now dt concls
          = some { stream := [StreamItem.text "Invalid request: Expected field, rename"],
                   httpcode := 400, mime_url := concls.mime_url, calls := [],
                   tracker := dt })) := by
  have hk : structdata.has_key "fields" = true := by
    simp [structured_data.has_key, hfields]
  refine ⟨?_, ?_⟩
  · intro hwf
    have hpf := parse_fields_well_formed entries [] hwf
    simp only [List.nil_append] at hpf
    have hsv : ∀ cmd, parse_command now structdata = .ok cmd →
        cmd.summary_vec = entries.map FieldEntry.selector := by
      intro cmd hcmd
      unfold parse_command at hcmd
      simp only [hk, if_true, structured_data.get_structured_by_key, hfields,
        structured_data.as_vector, hpf] at hcmd
      split at hcmd
      · simp at hcmd
      · split at hcmd
        · simp at hcmd
        · split at hcmd
          · split at hcmd
            · simp at hcmd
            · simp only [Except.ok.injEq] at hcmd
              rw [← hcmd]
          · simp only [Except.ok.injEq] at hcmd
            rw [← hcmd]
    refine ⟨hpf, by simp, hsv, ?_, ?_⟩
    · intro w hw hlt
      have hnl : structdata.has_key "last_time" = false := by
        simp [structured_data.has_key, hlt]
      cases hr : structdata.lookup "regex" with
      | none =>
        refine ⟨{ summary_vec := entries.map FieldEntry.selector, wrapper_name := w,
                  regexdata := none, post_ts := 0 }, ?_, rfl⟩
        simp [parse_command, hk, structured_data.get_structured_by_key, hfields,
          structured_data.as_vector, hpf, hw, structured_data.has_key, hr, hlt]
      | some r =>
        refine ⟨{ summary_vec := entries.map FieldEntry.selector, wrapper_name := w,
                  regexdata := some r, post_ts := 0 }, ?_, rfl⟩
        simp [parse_command, hk, structured_data.get_structured_by_key, hfields,
          structured_data.as_vector, hpf, hw, structured_data.has_key, hr, hlt]
    · intro E dt concls t0 t3 t4 rest v cmd dev htok hjson hparse hcmd hser hdev htarget
      have h4 : ¬ rest.length + 1 + 1 + 1 + 1 + 1 < 4 := by omega
      have h5 : ¬ rest.length + 1 + 1 + 1 + 1 + 1 < 5 := by omega
      simp [httpd_post_complete, htok, h4, h5, hjson, hparse, hcmd, post_by_key, hser, hdev,
        htarget, SummarizeSingletracker_element, hsv cmd hcmd]
  · intro hbad
    have hpf := parse_fields_ill_formed entries [] hbad
    have hpc : parse_command now structdata
        = .error (Abort.returned "Invalid request: Expected field, rename") := by
      simp [parse_command, hk, structured_data.get_structured_by_key, hfields,
        structured_data.as_vector, hpf]
    refine ⟨hpc, ?_⟩
    intro E dt concls v h4 hjson hparse
    simp [httpd_post_complete, h4, hjson, hparse, hpc, reply_code]

/-- Witness for C13: the body `fields: ["name", ["signal.last", "sig"]]` on a by-key
`device` request, and the body `fields: ["name", ["signal.last"]]`. -/
theorem C13_fields_selector_witness :
    httpd_post_complete exampleEnv 1000 exampleTracker
        (exampleConnection "/devices/by-key/1/device.json"
          [("json",
            "\x7b\x22fields\x22: [\x22name\x22, [\x22signal.last\x22, \x22sig\x22]]\x7d")])
      = some (reply
          (exampleConnection "/devices/by-key/1/device.json"
            [("json",
              "\x7b\x22fields\x22: [\x22name\x22, [\x22signal.last\x22, \x22sig\x22]]\x7d")])
          exampleTracker
          [StreamItem.serialized "json"
            (tracker_element.summary
              { dev := exampleDev1,
                summary_vec := [{ field := "name", rename := none },
                                { field := "signal.last", rename := some "sig" }] })
            true]) ∧
    httpd_post_complete exampleEnv 1000 exampleTracker
        (exampleConnection "/devices/by-key/1/device.json"
          [("json", "\x7b\x22fields\x22: [\x22name\x22, [\x22signal.last\x22]]\x7d")])
      = some { stream := [StreamItem.text "Invalid request: Expected field, rename"],
               httpcode := 400, mime_url := "", calls := [], tracker := exampleTracker } :=
  ⟨(C13_fields_selector 1000
      (structured_data.dict [("fields", structured_data.arr
        [structured_data.str "name",
         structured_data.arr [structured_data.str "signal.last", structured_data.str "sig"]])])
      [FieldEntry.path "name", FieldEntry.strings ["signal.last", "sig"]] rfl).1
      (by decide) |>.2.2.2.2 exampleEnv exampleTracker
        (exampleConnection "/devices/by-key/1/device.json"
          [("json",
            "\x7b\x22fields\x22: [\x22name\x22, [\x22signal.last\x22, \x22sig\x22]]\x7d")])
        "" "1" "device.json" []
        ("json",
          "\x7b\x22fields\x22: [\x22name\x22, [\x22signal.last\x22, \x22sig\x22]]\x7d")
        { summary_vec := [{ field := "name", rename := none },
                          { field := "signal.last", rename := some "sig" }],
          wrapper_name := "", regexdata := none, post_ts := 0 }
        exampleDev1 (by decide) (by decide) rfl rfl (by decide) (by decide) (by decide),
   (C13_fields_selector 1000
      (structured_data.dict [("fields", structured_data.arr
        [structured_data.str "name",
         structured_data.arr [structured_data.str "signal.last"]])])
      [FieldEntry.path "name", FieldEntry.strings ["signal.last"]] rfl).2
      ⟨FieldEntry.strings ["signal.last"], by simp, by decide⟩ |>.2
        exampleEnv exampleTracker
        (exampleConnection "/devices/by-key/1/device.json"
          [("json", "\x7b\x22fields\x22: [\x22name\x22, [\x22signal.last\x22]]\x7d")])
        ("json", "\x7b\x22fields\x22: [\x22name\x22, [\x22signal.last\x22]]\x7d")
        (by decide) (by decide) rfl⟩

/-- C14: for every packet, `insert` with an index at or above `MAX_PACKET_COMPONENTS`
raises the error and leaves the packet, so every slot of `content_vec`, as it was; with an
index below `MAX_PACKET_COMPONENTS` it raises nothing. -/
theorem C14_insert_bounds (MAX_PACKET_COMPONENTS : Nat) (p : kis_packet) (index : Nat)
    (data : Option packet_component) :
    (MAX_PACKET_COMPONENTS ≤ index →
      (kis_packet.insert MAX_PACKET_COMPONENTS p index data).thrown
        = some { index := index, bound := MAX_PACKET_COMPONENTS } ∧
      (kis_packet.insert MAX_PACKET_COMPONENTS p index data).packet = p ∧
      (kis_packet.insert MAX_PACKET_COMPONENTS p index data).packet.content_vec
        = p.content_vec) ∧
    (index < MAX_PACKET_COMPONENTS →
      (kis_packet.insert MAX_PACKET_COMPONENTS p index data).thrown = none) := by
  refine ⟨fun h => ?_, fun h => ?_⟩
  · have hge : index ≥ MAX_PACKET_COMPONENTS := h
    simp [kis_packet.insert, hge]
  · have hlt : ¬ index ≥ MAX_PACKET_COMPONENTS := by omega
    simp [kis_packet.insert, hlt]

/-- Witness for C14: with four slots, index 4 is refused and index 3 is accepted. -/
theorem C14_insert_bounds_witness :
    ((kis_packet.insert 4 examplePacket 4 (some ⟨300, true⟩)).thrown
        = some { index := 4, bound := 4 } ∧
      (kis_packet.insert 4 examplePacket 4 (some ⟨300, true⟩)).packet = examplePacket ∧
      (kis_packet.insert 4 examplePacket 4 (some ⟨300, true⟩)).packet.content_vec
        = examplePacket.content_vec) ∧
    (kis_packet.insert 4 examplePacket 3 (some ⟨300, true⟩)).thrown = none :=
  ⟨(C14_insert_bounds 4 examplePacket 4 (some ⟨300, true⟩)).1 (by decide),
   (C14_insert_bounds 4 examplePacket 3 (some ⟨300, true⟩)).2 (by decide)⟩

/-- C15, counterexample: with four slots, `fetch(4)` raises nothing and returns null, and
`erase(4)` raises nothing and has no effect, while `insert(4, d)` does raise. -/
theorem C15_counterexample_silent_return :
    kis_packet.fetch 4 examplePacket 4 = { thrown := none, ret := none } ∧
    kis_packet.erase 4 examplePacket 4
      = { thrown := none, packet := examplePacket, deleted := [] } ∧
    (kis_packet.insert 4 examplePacket 4 none).thrown = some { index := 4, bound := 4 } := by
  decide

/-- C15, amended: for every packet and every index at or above `MAX_PACKET_COMPONENTS`,
`fetch` returns null and `erase` returns with the packet as it was and nothing deleted;
neither raises an error. -/
theorem C15_fetch_erase_out_of_bounds (MAX_PACKET_COMPONENTS : Nat) (p : kis_packet)
    (index : Nat) (h : MAX_PACKET_COMPONENTS ≤ index) :
    kis_packet.fetch MAX_PACKET_COMPONENTS p index = { thrown := none, ret := none } ∧
    kis_packet.erase MAX_PACKET_COMPONENTS p index
      = { thrown := none, packet := p, deleted := [] } := by
  have hge : index ≥ MAX_PACKET_COMPONENTS := h
  simp [kis_packet.fetch, kis_packet.erase, hge]

/-- Witness for C15 (amended): four slots, index 7. -/
theorem C15_fetch_erase_out_of_bounds_witness :
    kis_packet.fetch 4 examplePacket 7 = { thrown := none, ret := none } ∧
    kis_packet.erase 4 examplePacket 7
      = { thrown := none, packet := examplePacket, deleted := [] } :=
  C15_fetch_erase_out_of_bounds 4 examplePacket 7 (by decide)

/-- C17: for a packet with `MAX_PACKET_COMPONENTS` slots and an index `i` below that
bound, after `erase(i)` slot `i` is empty (`fetch(i)` returns null), every other slot is
as before, nothing is raised, the component that occupied the slot is deleted exactly
when its `self_destruct` flag is set (and nothing else is deleted), an empty slot leaves
the packet as it was, and a second `erase(i)` changes nothing and deletes nothing. -/
theorem C17_erase_slot (MAX_PACKET_COMPONENTS : Nat) (p : kis_packet) (i : Nat)
    (hp : p.content_vec.length = MAX_PACKET_COMPONENTS) (hi : i < MAX_PACKET_COMPONENTS) :
    (kis_packet.erase MAX_PACKET_COMPONENTS p i).thrown = none ∧
    (kis_packet.fetch MAX_PACKET_COMPONENTS
        (kis_packet.erase MAX_PACKET_COMPONENTS p i).packet i).ret = none ∧
    (∀ j, j ≠ i →
      (kis_packet.fetch MAX_PACKET_COMPONENTS
          (kis_packet.erase MAX_PACKET_COMPONENTS p i).packet j).ret
        = (kis_packet.fetch MAX_PACKET_COMPONENTS p j).ret) ∧
    (∀ c, (kis_packet.fetch MAX_PACKET_COMPONENTS p i).ret = some c →
      (kis_packet.erase MAX_PACKET_COMPONENTS p i).deleted
        = (if c.self_destruct then [c] else []) ∧
      (c ∈ (kis_packet.erase MAX_PACKET_COMPONENTS p i).deleted
        ↔ c.self_destruct = true)) ∧
    ((kis_packet.fetch MAX_PACKET_COMPONENTS p i).ret = none →
      kis_packet.erase MAX_PACKET_COMPONENTS p i
        = { thrown := none, packet := p, deleted := [] }) ∧
    kis_packet.erase MAX_PACKET_COMPONENTS
        (kis_packet.erase MAX_PACKET_COMPONENTS p i).packet i
      = { thrown := none, packet := (kis_packet.erase MAX_PACKET_COMPONENTS p i).packet,
          deleted := [] } := by
  have hlt : ¬ i ≥ MAX_PACKET_COMPONENTS := by omega
  have hil : i < p.content_vec.length := by omega
  cases hslot0 : p.content_vec.getD i none with
  | none =>
    have hslot := hslot0
    rw [List.getD_eq_getElem?_getD] at hslot
    have he : kis_packet.erase MAX_PACKET_COMPONENTS p i
        = { thrown := none, packet := p, deleted := [] } := by
      simp [kis_packet.erase, hlt, hslot]
    rw [he]
    refine ⟨rfl, ?_, fun j _ => rfl, ?_, fun _ => rfl, he⟩
    · simp [kis_packet.fetch, hlt, hslot]
    · intro c hc
      simp [kis_packet.fetch, hlt, hslot] at hc
  | some c0 =>
    have hslot := hslot0
    rw [List.getD_eq_getElem?_getD] at hslot
    have he : kis_packet.erase MAX_PACKET_COMPONENTS p i
        = { thrown := none, packet := { p with content_vec := p.content_vec.set i none },
            deleted := if c0.self_destruct then [c0] else [] } := by
      simp [kis_packet.erase, hlt, hslot]
    rw [he]
    have hself : (p.content_vec.set i none)[i]?.getD none = none :=
      getD_set_self p.content_vec i none hil
    refine ⟨rfl, ?_, ?_, ?_, ?_, ?_⟩
    · simp [kis_packet.fetch, hlt, hself]
    · intro j hj
      by_cases hjm : j ≥ MAX_PACKET_COMPONENTS
      · simp [kis_packet.fetch, hjm]
      · simp [kis_packet.fetch, hjm, getD_set_other p.content_vec i j none hj]
    · intro c hc
      have hcc : c = c0 := by
        simp [kis_packet.fetch, hlt, hslot] at hc
        exact hc.symm
      subst hcc
      refine ⟨rfl, ?_⟩
      cases c.self_destruct <;> simp
    · intro hnone
      simp [kis_packet.fetch, hlt, hslot] at hnone
    · simp [kis_packet.erase, hlt, hself]

/-- Witness for C17: erasing the owned component of slot 1 deletes it, erasing the
borrowed component of slot 2 does not. -/
theorem C17_erase_slot_witness :
    (kis_packet.erase 4 examplePacket 1).deleted = [⟨100, true⟩] ∧
    (kis_packet.erase 4 examplePacket 2).deleted = [] ∧
    (kis_packet.fetch 4 (kis_packet.erase 4 examplePacket 2).packet 2).ret = none := by
  have h1 := (C17_erase_slot 4 examplePacket 1 (by decide) (by decide)).2.2.2.1
    ⟨100, true⟩ (by decide)
  have h2 := (C17_erase_slot 4 examplePacket 2 (by decide) (by decide)).2.2.2.1
    ⟨200, false⟩ (by decide)
  exact ⟨h1.1, h2.1, (C17_erase_slot 4 examplePacket 2 (by decide) (by decide)).2.1⟩

/-- C18: for a packet with `MAX_PACKET_COMPONENTS` slots, an index `i` below that bound
and a component pointer `d`, `insert(i, d)` raises nothing, afterwards `fetch(i)` returns
`d` and `fetch(j)` is as before for every other `j`, and nothing is deleted, also when
slot `i` was occupied (the old component is replaced and a leak warning for slot `i` is
printed); on a freshly constructed packet `fetch` returns null for every index. -/
theorem C18_insert_then_fetch (MAX_PACKET_COMPONENTS : Nat) (p : kis_packet) (i : Nat)
    (d : Option packet_component)
    (hp : p.content_vec.length = MAX_PACKET_COMPONENTS) (hi : i < MAX_PACKET_COMPONENTS) :
    (kis_packet.insert MAX_PACKET_COMPONENTS p i d).thrown = none ∧
    (kis_packet.fetch MAX_PACKET_COMPONENTS
        (kis_packet.insert MAX_PACKET_COMPONENTS p i d).packet i).ret = d ∧
    (∀ j, j ≠ i →
      (kis_packet.fetch MAX_PACKET_COMPONENTS
          (kis_packet.insert MAX_PACKET_COMPONENTS p i d).packet j).ret
        = (kis_packet.fetch MAX_PACKET_COMPONENTS p j).ret) ∧
    (kis_packet.insert MAX_PACKET_COMPONENTS p i d).deleted = [] ∧
    ((kis_packet.insert MAX_PACKET_COMPONENTS p i d).warning = some i
      ↔ (kis_packet.fetch MAX_PACKET_COMPONENTS p i).ret ≠ none) ∧
    (∀ index,
      kis_packet.fetch MAX_PACKET_COMPONENTS (kis_packet.kis_packet MAX_PACKET_COMPONENTS)
          index
        = { thrown := none, ret := none }) := by
  have hlt : ¬ i ≥ MAX_PACKET_COMPONENTS := by omega
  have hil : i < p.content_vec.length := by omega
  refine ⟨?_, ?_, ?_, ?_, ?_, ?_⟩
  · simp [kis_packet.insert, hlt]
  · simp [kis_packet.insert, kis_packet.fetch, hlt, getD_set_self p.content_vec i d hil]
  · intro j hj
    by_cases hjm : j ≥ MAX_PACKET_COMPONENTS
    · simp [kis_packet.fetch, hjm]
    · simp [kis_packet.insert, kis_packet.fetch, hlt, hjm,
        getD_set_other p.content_vec i j d hj]
  · simp [kis_packet.insert, hlt]
  · simp [kis_packet.insert, kis_packet.fetch, hlt]
  · intro index
    by_cases hm : index ≥ MAX_PACKET_COMPONENTS
    · simp [kis_packet.fetch, hm]
    · have hlt2 : index < MAX_PACKET_COMPONENTS := by omega
      simp [kis_packet.fetch, hm, kis_packet.kis_packet, List.getD_eq_getElem?_getD,
        List.getElem?_replicate, hlt2]

/-- Witness for C18: a component inserted on top of the borrowed one in slot 2. -/
theorem C18_insert_then_fetch_witness :
    (kis_packet.fetch 4 (kis_packet.insert 4 examplePacket 2 (some ⟨300, true⟩)).packet 2).ret
      = some ⟨300, true⟩ ∧
    (kis_packet.insert 4 examplePacket 2 (some ⟨300, true⟩)).deleted = [] :=
  ⟨(C18_insert_then_fetch 4 examplePacket 2 (some ⟨300, true⟩) (by decide) (by decide)).2.1,
   (C18_insert_then_fetch 4 examplePacket 2 (some ⟨300, true⟩)
      (by decide) (by decide)).2.2.2.1⟩

/-- C16: for a `GET` path whose tokens start `_, devices, by-key`, `httpd_verify_path`
answers, and it accepts exactly when the path has at least 5 tokens, the key token parses
without error, the target token has a serializer, a device is stored under the key, the
target without its suffix is `device`, and, when more tokens follow, they resolve to a
child of the device. -/
theorem C16_verify_get_by_key_iff (E : Env) (dt : device_tracker) (path t0 : String)
    (rest : List String)
    (hpath : path ≠ "/devices/all_devices.ekjson")
    (htok : E.str_tokenize path = t0 :: "devices" :: "by-key" :: rest) :
    ∃ b, httpd_verify_path E dt path "GET" = some b ∧
      (b = true ↔
        5 ≤ (E.str_tokenize path).length ∧
        ∃ t3 t4 dev,
          (E.str_tokenize path)[3]? = some t3 ∧ (E.str_tokenize path)[4]? = some t4 ∧
          (E.device_key t3).error = false ∧
          E.httpd_can_serialize t4 = true ∧
          fetch_device dt (E.device_key t3) = some dev ∧
          E.httpd_strip_suffix t4 = "device" ∧
          (5 < (E.str_tokenize path).length →
            (dev.get_child_path ((E.str_tokenize path).drop 5)).isSome = true)) := by
  have hv : httpd_verify_path E dt path "GET"
      = verify_get_by_key E dt (t0 :: "devices" :: "by-key" :: rest) := by
    have h2 : ¬ rest.length + 1 + 1 + 1 < 2 := by omega
    have h3 : ¬ rest.length + 1 + 1 + 1 < 3 := by omega
    simp [httpd_verify_path, hpath, htok, h2, h3]
  rw [hv, htok]
  rcases rest with _ | ⟨t3, _ | ⟨t4, more⟩⟩
  · exact ⟨false, by simp [verify_get_by_key], by simp⟩
  · exact ⟨false, by simp [verify_get_by_key], by simp⟩
  · have h5 : ¬ more.length + 1 + 1 + 1 + 1 + 1 < 5 := by omega
    simp only [verify_get_by_key, List.length_cons, h5, if_false, List.getElem?_cons_succ,
      List.getElem?_cons_zero, Option.some_bind, List.drop_succ_cons, List.drop_zero,
      Option.some.injEq]
    by_cases hkey : (E.device_key t3).error = true
    · exact ⟨false, by simp [hkey], by simp [hkey]⟩
    by_cases hser : E.httpd_can_serialize t4 = true
    swap
    · exact ⟨false, by simp [hkey, hser], by simp [hser]⟩
    cases hdev : fetch_device dt (E.device_key t3) with
    | none => exact ⟨false, by simp [hkey, hser, hdev], by simp [hdev]⟩
    | some dev =>
      by_cases htarget : E.httpd_strip_suffix t4 = "device"
      swap
      · exact ⟨false, by simp [hkey, hser, hdev, htarget], by simp [htarget]⟩
      by_cases hmore : more.length + 1 + 1 + 1 + 1 + 1 > 5
      · cases hchild : dev.get_child_path more with
        | none =>
          refine ⟨false, by simp [hkey, hser, hdev, htarget, hmore, hchild],
            ⟨fun h => absurd h (by decide), fun h => ?_⟩⟩
          obtain ⟨_, a, b, d, h3, h4, _, _, hd, _, hc⟩ := h
          subst h3 h4
          have hdd : dev = d := Option.some.inj (hdev.symm.trans hd)
          subst hdd
          have := hc (by omega)
          rw [hchild] at this
          simp at this
        | some sub =>
          refine ⟨true, by simp [hkey, hser, hdev, htarget, hmore, hchild], ?_⟩
          simp only [true_iff]
          exact ⟨by omega, t3, t4, dev, rfl, rfl, by simpa using hkey, hser, hdev, htarget,
            fun _ => by simp [hchild]⟩
      · refine ⟨true, by simp [hkey, hser, hdev, htarget, hmore], ?_⟩
        simp only [true_iff]
        exact ⟨by omega, t3, t4, dev, rfl, rfl, by simpa using hkey, hser, hdev, htarget,
          fun h => absurd h (by omega)⟩

/-- Witness for C16: key 1 with the child path `name` is accepted, with the child path
`nope` it is refused. -/
theorem C16_verify_get_by_key_iff_witness :
    (∃ b, httpd_verify_path exampleEnv exampleTracker "/devices/by-key/1/device.json/name"
        "GET" = some b ∧
      (b = true ↔
        5 ≤ (exampleEnv.str_tokenize "/devices/by-key/1/device.json/name").length ∧
        ∃ t3 t4 dev,
          (exampleEnv.str_tokenize "/devices/by-key/1/device.json/name")[3]? = some t3 ∧
          (exampleEnv.str_tokenize "/devices/by-key/1/device.json/name")[4]? = some t4 ∧
          (exampleEnv.device_key t3).error = false ∧
          exampleEnv.httpd_can_serialize t4 = true ∧
          fetch_device exampleTracker (exampleEnv.device_key t3) = some dev ∧
          exampleEnv.httpd_strip_suffix t4 = "device" ∧
          (5 < (exampleEnv.str_tokenize "/devices/by-key/1/device.json/name").length →
            (dev.get_child_path
              ((exampleEnv.str_tokenize "/devices/by-key/1/device.json/name").drop 5)).isSome
              = true))) ∧
    httpd_verify_path exampleEnv exampleTracker "/devices/by-key/1/device.json/name" "GET"
      = some true ∧
    httpd_verify_path exampleEnv exampleTracker "/devices/by-key/1/device.json/nope" "GET"
      = some false :=
  ⟨C16_verify_get_by_key_iff exampleEnv exampleTracker "/devices/by-key/1/device.json/name"
      "" ["1", "device.json", "name"] (by decide) (by decide),
   by decide, by decide⟩

/-- C19: for every path and every method, `httpd_verify_path`,
`httpd_create_stream_response` and `httpd_post_complete` reach a result without reading a
token past the end of the tokenized path (in this embedding such a read is the only way to
yield `none`). -/
theorem C19_token_access_in_bounds (E : Env) (now : Int) (dt : device_tracker)
    (connection concls : kis_net_httpd_connection) (path method : String) :
    (∃ b, httpd_verify_path E dt path method = some b) ∧
    (∃ r, httpd_create_stream_response E now dt connection path method = some r) ∧
    (∃ r, httpd_post_complete E now dt concls = some r) := by
  refine ⟨httpd_verify_path_total E dt path method, ?_, ?_⟩
  · obtain ⟨r, hr, _⟩ := httpd_create_stream_response_outcome E now dt connection path method
    exact ⟨r, hr⟩
  · obtain ⟨r, hr, _⟩ := httpd_post_complete_outcome E now dt concls
    exact ⟨r, hr⟩

/-- C20: two `POST` requests on connections that differ only in their POST variables,
whose bodies parse to the same dictionary up to the number stored under `last_time`, with
the same session, the same table and the same time: `httpd_post_complete` leaves behind
the same response (stream with the element serialized, status, mutator calls, tracker).
The body's `last_time` only reaches `post_ts`, which nothing reads. -/
theorem C20_body_last_time_ignored (E : Env) (now : Int) (dt : device_tracker)
    (concls : kis_net_httpd_connection) (vc : List (String × String))
    (v1 v2 : String × String) (sd : structured_data) (n m : Int)
    (hj1 : concls.variable_cache.find? (fun v => v.1 = "json") = some v1)
    (hp1 : E.structured_json v1.2 = .ok (with_last_time sd n))
    (hj2 : vc.find? (fun v => v.1 = "json") = some v2)
    (hp2 : E.structured_json v2.2 = .ok (with_last_time sd m))
    (hs : E.has_valid_session { concls with variable_cache := vc }
      = E.has_valid_session concls) :
    httpd_post_complete E now dt { concls with variable_cache := vc }
      = httpd_post_complete E now dt concls := by
  have hpc := parse_command_with_last_time now sd n m
  unfold httpd_post_complete
  simp only [hj1, hp1, hj2, hp2]
  by_cases h4 : (E.str_tokenize concls.url).length < 4
  · rw [if_pos h4, if_pos h4]
    rfl
  rw [if_neg h4, if_neg h4]
  cases h1 : parse_command now (with_last_time sd n) with
  | error a =>
    cases h2 : parse_command now (with_last_time sd m) with
    | error b =>
      rw [h1, h2] at hpc
      have hab : a = b := by simpa [Except.map] using hpc
      subst hab
      cases a <;> rfl
    | ok c2 =>
      rw [h1, h2] at hpc
      simp [Except.map] at hpc
  | ok c1 =>
    cases h2 : parse_command now (with_last_time sd m) with
    | error b =>
      rw [h1, h2] at hpc
      simp [Except.map] at hpc
    | ok c2 =>
      rw [h1, h2] at hpc
      have hu : c1.used = c2.used := by simpa [Except.map] using hpc
      have hmac := fun tok => post_by_mac_congr E dt concls vc tok c1 c2 hu
      have hkey := fun tok => post_by_key_congr E dt concls vc tok sd n m c1 c2 hu hs
      have hlt := fun tok => post_last_time_congr E now dt concls vc tok c1 c2 hu
      have hend : post_end { concls with variable_cache := vc } dt = post_end concls dt := rfl
      simp only [hmac, hkey, hlt, hend]

/-- Witness for C20: the bodies `last_time: 5` and `last_time: -500` on a last-time
request with URL timestamp 100 select the same two devices. -/
theorem C20_body_last_time_ignored_witness :
    httpd_post_complete exampleEnv 1000 exampleTracker
        (exampleConnection "/devices/last-time/100/devices.json"
          [("json", "\x7b\x22last_time\x22: -500\x7d")])
      = httpd_post_complete exampleEnv 1000 exampleTracker
          (exampleConnection "/devices/last-time/100/devices.json"
            [("json", "\x7b\x22last_time\x22: 5\x7d")]) ∧
    httpd_post_complete exampleEnv 1000 exampleTracker
        (exampleConnection "/devices/last-time/100/devices.json"
          [("json", "\x7b\x22last_time\x22: 5\x7d")])
      = some { stream := [StreamItem.serialized "json"
                 (tracker_element.summary_vector
                   [{ dev := exampleDev2, summary_vec := [] },
                    { dev := exampleDev3, summary_vec := [] }]) true],
               httpcode := 200, mime_url := "", calls := [], tracker := exampleTracker } :=
  ⟨C20_body_last_time_ignored exampleEnv 1000 exampleTracker
      (exampleConnection "/devices/last-time/100/devices.json"
        [("json", "\x7b\x22last_time\x22: 5\x7d")])
      [("json", "\x7b\x22last_time\x22: -500\x7d")]
      ("json", "\x7b\x22last_time\x22: 5\x7d") ("json", "\x7b\x22last_time\x22: -500\x7d")
      (structured_data.dict [("last_time", structured_data.num 0)]) 5 (-500)
      (by decide) rfl (by decide) rfl rfl,
   by decide⟩

end Kismet
